import Mathlib

/-!
Verification of the weewx pushover/notify threshold-evaluation engine.

The definitions below are shallow embeddings of the Python source in
`bin/user/pushover.py` and `bin/user/notify.py`.  Python dictionaries holding
per-check runtime state become Lean structures; the optional
`threshold_passed` sub-dictionary and the `missing_observations` tracker
entries become `Option` fields; an unguarded dictionary access that can raise
`KeyError` is modelled by an `Option`-valued result (`none` = `KeyError`).
Timestamps, observation values and wait times are integers (`int(time.time())`
and `to_int`/`int(...)` in the source); counters and counts are naturals.
Message strings are built exactly as the source's f-strings/templates do, with
the local-time rendering `format_timestamp` abstracted as a parameter
`fmt : Int → String`.
-/

/-- The `threshold_passed` sub-dictionary created when a min/max/equal check
first sees a violating value: `{'timestamp': now, 'notification_count': 0}`. -/
structure ThresholdPassed where
  timestamp : Int
  notification_count : Nat
  deriving Repr, DecidableEq

/-- Per-check runtime/config state, one instance per configured check kind:
the dictionary built by `init_observations` (`value`, `count`, `wait_time`,
`return_notification`, `last_sent_timestamp`, `counter`) together with the
optional `threshold_passed` record. -/
structure ObservationDetail where
  value : Int
  count : Nat
  wait_time : Int
  return_notification : Bool
  last_sent_timestamp : Int
  counter : Nat
  threshold_passed : Option ThresholdPassed
  deriving Repr, DecidableEq

/-- A `missing_observations[observation]` entry:
`{'missing_time': now, 'notification_count': 0}`. -/
structure TrackerEntry where
  missing_time : Int
  notification_count : Nat
  deriving Repr, DecidableEq

/-- The state touched by the missing/returned checks of one observation: the
`missing` check's detail dictionary plus this observation's (optional) entry
in `self.missing_observations`. -/
structure MissingState where
  detail : ObservationDetail
  tracker : Option TrackerEntry
  deriving Repr, DecidableEq

/-- The `result2` dictionary built by the `notify.py` check functions. -/
structure NotifyResult where
  rtype : String
  threshold_value : Option Int
  name : String
  label : String
  current_value : Option Int
  notifications_sent : Nat
  date_time : Int
  deriving Repr, DecidableEq

namespace Notify

/-- Common core of `Notify.check_min_value`, `check_max_value` and
`check_equal_value` in `notify.py`; the three Python functions are identical
except for the comparison on the first `if` line, passed here as `violates`.
The outer `none` models the `KeyError` raised by the unguarded
`observation_detail['threshold_passed']` access. -/
def check_threshold (violates : Int → Int → Bool) (name label : String)
    (d : ObservationDetail) (value now : Int) :
    Option (ObservationDetail × Option NotifyResult) :=
  let time_delta : Int := |now - d.last_sent_timestamp|
  if violates value d.value then
    let d' : ObservationDetail :=
      if d.counter = 0 then
        { d with threshold_passed := some ⟨now, 0⟩, counter := d.counter + 1 }
      else
        { d with counter := d.counter + 1 }
    if d'.wait_time ≤ time_delta then
      if d'.count ≤ d'.counter then
        match d'.threshold_passed with
        | none => none
        | some tp =>
          let tp' : ThresholdPassed := ⟨tp.timestamp, tp.notification_count + 1⟩
          some ({ d' with threshold_passed := some tp' },
                some { rtype := "outside", threshold_value := some d.value,
                       name := name, label := label,
                       current_value := some value,
                       notifications_sent := tp'.notification_count,
                       date_time := tp.timestamp })
      else some (d', none)
    else some (d', none)
  else
    if 0 < d.counter then
      match d.threshold_passed with
      | none => none
      | some tp =>
        let res : Option NotifyResult :=
          if 0 < tp.notification_count then
            if d.return_notification then
              some { rtype := "within", threshold_value := some d.value,
                     name := name, label := label,
                     current_value := some value,
                     notifications_sent := tp.notification_count,
                     date_time := tp.timestamp }
            else none
          else none
        some ({ d with counter := 0, last_sent_timestamp := 1 }, res)
    else some (d, none)

/-- Embedding of `Notify.check_min_value`: violation is `value < observation_detail['value']`. -/
def check_min_value (name label : String) (d : ObservationDetail) (value now : Int) :
    Option (ObservationDetail × Option NotifyResult) :=
  check_threshold (fun v t => decide (v < t)) name label d value now

/-- Embedding of `Notify.check_max_value`: violation is `value > observation_detail['value']`. -/
def check_max_value (name label : String) (d : ObservationDetail) (value now : Int) :
    Option (ObservationDetail × Option NotifyResult) :=
  check_threshold (fun v t => decide (v > t)) name label d value now

/-- Embedding of `Notify.check_equal_value`: violation is `value != observation_detail['value']`. -/
def check_equal_value (name label : String) (d : ObservationDetail) (value now : Int) :
    Option (ObservationDetail × Option NotifyResult) :=
  check_threshold (fun v t => decide (v ≠ t)) name label d value now

/-- Iterated evaluation of one min/max/equal check: `cycles violates v tms d i`
is the state and the result after the `i`-th consecutive cycle, where cycle
`j` (1-based) feeds value `v (j-1)` at time `tms (j-1)`. -/
def cycles (violates : Int → Int → Bool) (name label : String)
    (v tms : Nat → Int) (d : ObservationDetail) :
    Nat → Option (ObservationDetail × Option NotifyResult)
  | 0 => some (d, none)
  | i + 1 =>
    match cycles violates name label v tms d i with
    | none => none
    | some (d', _) => check_threshold violates name label d' (v i) (tms i)

end Notify

namespace Pushover

/-- Embedding of `Pushover.check_min_value` in `pushover.py`: returns the updated check
state and the message string (`''` means no notification).  `fmt` stands for
`format_timestamp`. -/
def check_min_value (fmt : Int → String) (name label : String)
    (d : ObservationDetail) (value now : Int) : ObservationDetail × String :=
  let time_delta : Int := |now - d.last_sent_timestamp|
  if value < d.value then
    let tp := d.threshold_passed.getD ⟨now, 0⟩
    let d' := { d with threshold_passed := some tp, counter := d.counter + 1 }
    if d'.wait_time ≤ time_delta then
      if d'.count ≤ d'.counter then
        let tp' : ThresholdPassed := ⟨tp.timestamp, tp.notification_count + 1⟩
        ({ d' with threshold_passed := some tp' },
         "At " ++ fmt tp.timestamp ++ " " ++ name ++ label ++
           " went below threshold of " ++ toString d.value ++
           ". Current value is " ++ toString value ++ ".\n")
      else (d', "")
    else (d', "")
  else
    match d.threshold_passed with
    | some tp =>
      let msg :=
        if 0 < tp.notification_count then
          if d.return_notification then
            name ++ label ++ " under Min threshold at " ++ fmt tp.timestamp ++
              " is within threshold with value " ++ toString value ++ ", " ++
              toString tp.notification_count ++ " notifications sent.\n"
          else ""
        else ""
      ({ d with counter := 0, last_sent_timestamp := 1, threshold_passed := none }, msg)
    | none => (d, "")

/-- Embedding of `Pushover.check_missing_value` in `pushover.py`: creates the
`missing_observations` entry on the first missing cycle, increments the
counter, and fires when the time threshold holds and either the count
threshold holds or `last_sent_timestamp == 0`.  Note: unlike the min/max/equal
checks this uses `now - last_sent_timestamp` without `abs`. -/
def check_missing_value (fmt : Int → String) (name label : String)
    (s : MissingState) (now : Int) : MissingState × String :=
  let time_delta : Int := now - s.detail.last_sent_timestamp
  let tr := s.tracker.getD ⟨now, 0⟩
  let d := { s.detail with counter := s.detail.counter + 1 }
  if s.detail.wait_time ≤ time_delta then
    if d.count ≤ d.counter ∨ s.detail.last_sent_timestamp = 0 then
      let tr' : TrackerEntry := ⟨tr.missing_time, tr.notification_count + 1⟩
      (⟨d, some tr'⟩,
       name ++ label ++ " missing at " ++ fmt tr.missing_time ++ ", " ++
         toString tr'.notification_count ++ " notifications sent.\n")
    else (⟨d, some tr⟩, "")
  else (⟨d, some tr⟩, "")

/-- Embedding of `Pushover.check_value_returned` in `pushover.py`: if a tracker entry
exists, optionally emit the returned message, reset the counter, set the
sentinel `last_sent_timestamp = 1` and delete the entry; in every case a
`last_sent_timestamp` still equal to the startup value `0` is set to `1`. -/
def check_value_returned (fmt : Int → String) (name label : String)
    (s : MissingState) (value now : Int) : MissingState × String :=
  match s.tracker with
  | some tr =>
    let msg :=
      if 0 < tr.notification_count then
        if s.detail.return_notification then
          name ++ label ++ " missing at " ++ fmt tr.missing_time ++
            " returned with value " ++ toString value ++ ", " ++
            toString tr.notification_count ++ " notification sent.\n"
        else ""
      else ""
    let d := { s.detail with counter := 0, last_sent_timestamp := 1 }
    let d := if d.last_sent_timestamp = 0 then { d with last_sent_timestamp := 1 } else d
    (⟨d, none⟩, msg)
  | none =>
    let d :=
      if s.detail.last_sent_timestamp = 0 then
        { s.detail with last_sent_timestamp := 1 }
      else s.detail
    (⟨d, s.tracker⟩, "")

end Pushover

/-- The keys of the `msgs` dictionary handed to `Pusher.check_response`. -/
inductive CheckKey
  | returned
  | min
  | max
  | equal
  | missing
  deriving Repr, DecidableEq

/-- The transport error state held by the `Pusher`/`PushOver` notifier
objects, together with its two configuration values. -/
structure PusherState where
  client_error_log_frequency : Int
  server_error_wait_period : Int
  client_error_timestamp : Int
  client_error_last_logged : Int
  server_error_timestamp : Int
  deriving Repr, DecidableEq

namespace Pusher

/-- Embedding of `Pusher.throttle_notification` in `pushover.py` (identical to
`PushOver.throttle_notification` in `notify.py`): returns the updated error
state and whether the cycle is throttled.  The `if self.client_error_timestamp:`
Python truthiness test is `≠ 0`. -/
def throttle_notification (p : PusherState) (now : Int) : PusherState × Bool :=
  if p.client_error_timestamp ≠ 0 ∧
      |now - p.client_error_last_logged| < p.client_error_log_frequency then
    ({ p with client_error_last_logged := now }, true)
  else
    if |now - p.server_error_timestamp| < p.server_error_wait_period then
      (p, true)
    else
      ({ p with server_error_timestamp := 0 }, false)

/-- Embedding of `Pusher.check_response` in `pushover.py`: on HTTP 200, every check whose
message in `msgs` is nonempty gets `last_sent_timestamp = now` and
`counter = 0`; on 4xx/5xx the corresponding error timestamps are recorded and
the details are untouched.  `msgs` and `details` are the `msgs` dictionary and
the `observation_detail` dictionary, indexed by check key. -/
def check_response (p : PusherState) (code : Int) (now : Int)
    (msgs : CheckKey → String) (details : CheckKey → ObservationDetail) :
    PusherState × (CheckKey → ObservationDetail) :=
  if code = 200 then
    (p, fun k =>
      if msgs k ≠ "" then
        { details k with last_sent_timestamp := now, counter := 0 }
      else details k)
  else
    let p1 :=
      if 400 ≤ code ∧ code < 500 then
        { p with client_error_timestamp := now, client_error_last_logged := now }
      else p
    let p2 :=
      if 500 ≤ code ∧ code < 600 then { p1 with server_error_timestamp := now } else p1
    (p2, details)

/-- One `push_notification` call from `Pushover._process_data` for the single
check whose message is (nonempty and) being sent: when `push` is false the
involved check state is reset unconditionally (lines 573-577); when `push` is
true the outcome of `check_response` on `code` applies. -/
def push_one (push : Bool) (code : Int) (now : Int) (p : PusherState)
    (d : ObservationDetail) : PusherState × ObservationDetail :=
  if push then
    if code = 200 then
      (p, { d with last_sent_timestamp := now, counter := 0 })
    else
      let p1 :=
        if 400 ≤ code ∧ code < 500 then
          { p with client_error_timestamp := now, client_error_last_logged := now }
        else p
      let p2 :=
        if 500 ≤ code ∧ code < 600 then { p1 with server_error_timestamp := now } else p1
      (p2, d)
  else (p, { d with last_sent_timestamp := now, counter := 0 })

/-- The transport-state part of `push_one`: on a send with `push` true and a
non-200 code, record the error; otherwise nothing changes. -/
def push_error (push : Bool) (code : Int) (now : Int) (p : PusherState) : PusherState :=
  if push then
    if code = 200 then p
    else
      let p1 :=
        if 400 ≤ code ∧ code < 500 then
          { p with client_error_timestamp := now, client_error_last_logged := now }
        else p
      if 500 ≤ code ∧ code < 600 then { p1 with server_error_timestamp := now } else p1
  else p

end Pusher

/-- The runtime state of one configured observation in `Pushover`: the four
optional per-check detail dictionaries and this observation's entry in the
`missing_observations` map. -/
structure ObsState where
  minD : Option ObservationDetail
  maxD : Option ObservationDetail
  equalD : Option ObservationDetail
  missingD : Option ObservationDetail
  tracker : Option TrackerEntry
  deriving Repr, DecidableEq

namespace Pushover

/-- Embedding of `Pushover.check_max_value` in `pushover.py`. -/
def check_max_value (fmt : Int → String) (name label : String)
    (d : ObservationDetail) (value now : Int) : ObservationDetail × String :=
  let time_delta : Int := |now - d.last_sent_timestamp|
  if d.value < value then
    let tp := d.threshold_passed.getD ⟨now, 0⟩
    let d' := { d with threshold_passed := some tp, counter := d.counter + 1 }
    if d'.wait_time ≤ time_delta then
      if d'.count ≤ d'.counter then
        let tp' : ThresholdPassed := ⟨tp.timestamp, tp.notification_count + 1⟩
        ({ d' with threshold_passed := some tp' },
         "At " ++ fmt tp.timestamp ++ " " ++ name ++ label ++
           " went above threshold of " ++ toString d.value ++
           ". Current value is " ++ toString value ++ ".\n")
      else (d', "")
    else (d', "")
  else
    match d.threshold_passed with
    | some tp =>
      let msg :=
        if 0 < tp.notification_count then
          if d.return_notification then
            name ++ label ++ " over Max threshold at " ++ fmt tp.timestamp ++
              " is within threshold with value " ++ toString value ++ ", " ++
              toString tp.notification_count ++ " notifications sent.\n"
          else ""
        else ""
      ({ d with counter := 0, last_sent_timestamp := 1, threshold_passed := none }, msg)
    | none => (d, "")

/-- Embedding of `Pushover.check_equal_value` in `pushover.py`. -/
def check_equal_value (fmt : Int → String) (name label : String)
    (d : ObservationDetail) (value now : Int) : ObservationDetail × String :=
  let time_delta : Int := |now - d.last_sent_timestamp|
  if value ≠ d.value then
    let tp := d.threshold_passed.getD ⟨now, 0⟩
    let d' := { d with threshold_passed := some tp, counter := d.counter + 1 }
    if d'.wait_time ≤ time_delta then
      if d'.count ≤ d'.counter then
        let tp' : ThresholdPassed := ⟨tp.timestamp, tp.notification_count + 1⟩
        ({ d' with threshold_passed := some tp' },
         "At " ++ fmt tp.timestamp ++ " " ++ name ++ label ++
           " is no longer equal to threshold of " ++ toString d.value ++
           ". Current value is " ++ toString value ++ ".\n")
      else (d', "")
    else (d', "")
  else
    match d.threshold_passed with
    | some tp =>
      let msg :=
        if 0 < tp.notification_count then
          if d.return_notification then
            name ++ label ++ " Not Equal at " ++ fmt tp.timestamp ++
              " is within threshold with value " ++ toString value ++ ", " ++
              toString tp.notification_count ++ " notifications sent.\n"
          else ""
        else ""
      ({ d with counter := 0, last_sent_timestamp := 1, threshold_passed := none }, msg)
    | none => (d, "")

/-- Iterated evaluation of one pushover-variant min check, analogous to
`Notify.cycles`: the state and message after the `i`-th consecutive cycle. -/
def cyclesMin (fmt : Int → String) (name label : String)
    (v tms : Nat → Int) (d : ObservationDetail) : Nat → ObservationDetail × String
  | 0 => (d, "")
  | i + 1 =>
    check_min_value fmt name label (cyclesMin fmt name label v tms d i).1 (v i) (tms i)

/-- Iterated evaluation of one pushover-variant max check. -/
def cyclesMax (fmt : Int → String) (name label : String)
    (v tms : Nat → Int) (d : ObservationDetail) : Nat → ObservationDetail × String
  | 0 => (d, "")
  | i + 1 =>
    check_max_value fmt name label (cyclesMax fmt name label v tms d i).1 (v i) (tms i)

/-- Iterated evaluation of one pushover-variant equal check. -/
def cyclesEqual (fmt : Int → String) (name label : String)
    (v tms : Nat → Int) (d : ObservationDetail) : Nat → ObservationDetail × String
  | 0 => (d, "")
  | i + 1 =>
    check_equal_value fmt name label (cyclesEqual fmt name label v tms d i).1 (v i) (tms i)

/-- One observation's slice of `Pushover._process_data`.  `batchVal` models
the incoming record: `none` when the observation key is absent, `some none`
when the key is present with value `None`, `some (some v)` otherwise.  Each
check that produces a nonempty message triggers an immediate
`push_notification` (modelled by `Pusher.push_one`/`push_error` with outcome
`code`; `push` false means the notifier only logs and resets state).  A send
for the `returned` message updates `observation_detail['returned']`, a
vestigial empty record, so only the transport state changes for it. -/
def process_observation (fmt : Int → String) (name label : String)
    (push : Bool) (code : Int) (now : Int)
    (batchVal : Option (Option Int)) (p : PusherState) (s : ObsState) :
    ObsState × PusherState × List String :=
  match batchVal with
  | some (some v) =>
    let step1 : ObsState × PusherState × List String :=
      match s.missingD with
      | some md =>
        let (ms, msg) := check_value_returned fmt name label ⟨md, s.tracker⟩ v now
        if msg ≠ "" then
          ({ s with missingD := some ms.detail, tracker := ms.tracker },
           Pusher.push_error push code now p, [msg])
        else
          ({ s with missingD := some ms.detail, tracker := ms.tracker }, p, [])
      | none => (s, p, [])
    let (s1, p1, m1) := step1
    let step2 : ObsState × PusherState × List String :=
      match s1.minD with
      | some d =>
        let (d', msg) := check_min_value fmt name label d v now
        if msg ≠ "" then
          let (p', d'') := Pusher.push_one push code now p1 d'
          ({ s1 with minD := some d'' }, p', [msg])
        else ({ s1 with minD := some d' }, p1, [])
      | none => (s1, p1, [])
    let (s2, p2, m2) := step2
    let step3 : ObsState × PusherState × List String :=
      match s2.maxD with
      | some d =>
        let (d', msg) := check_max_value fmt name label d v now
        if msg ≠ "" then
          let (p', d'') := Pusher.push_one push code now p2 d'
          ({ s2 with maxD := some d'' }, p', [msg])
        else ({ s2 with maxD := some d' }, p2, [])
      | none => (s2, p2, [])
    let (s3, p3, m3) := step3
    let step4 : ObsState × PusherState × List String :=
      match s3.equalD with
      | some d =>
        let (d', msg) := check_equal_value fmt name label d v now
        if msg ≠ "" then
          let (p', d'') := Pusher.push_one push code now p3 d'
          ({ s3 with equalD := some d'' }, p', [msg])
        else ({ s3 with equalD := some d' }, p3, [])
      | none => (s3, p3, [])
    let (s4, p4, m4) := step4
    (s4, p4, m1 ++ m2 ++ m3 ++ m4)
  | some none => (s, p, [])
  | none =>
    match s.missingD with
    | some md =>
      let (ms, msg) := check_missing_value fmt name label ⟨md, s.tracker⟩ now
      if msg ≠ "" then
        let (p', d') := Pusher.push_one push code now p ms.detail
        ({ s with missingD := some d', tracker := ms.tracker }, p', [msg])
      else
        ({ s with missingD := some ms.detail, tracker := ms.tracker }, p, [])
    | none => (s, p, [])

end Pushover

namespace Notify

/-- Embedding of `Notify.check_missing_value` in `notify.py`: the tracker entry is created
when the counter is `0`; the unguarded
`self.missing_observations[observation]` access on the notification path is
the outer `none` (`KeyError`). -/
def check_missing_value (name label : String) (s : MissingState) (now : Int) :
    Option (MissingState × Option NotifyResult) :=
  let time_delta : Int := now - s.detail.last_sent_timestamp
  let tracker0 :=
    if s.detail.counter = 0 then some (⟨now, 0⟩ : TrackerEntry) else s.tracker
  let d := { s.detail with counter := s.detail.counter + 1 }
  if s.detail.wait_time ≤ time_delta then
    if d.count ≤ d.counter ∨ s.detail.last_sent_timestamp = 0 then
      match tracker0 with
      | none => none
      | some tr =>
        let tr' : TrackerEntry := ⟨tr.missing_time, tr.notification_count + 1⟩
        some (⟨d, some tr'⟩,
              some { rtype := "missing", threshold_value := none,
                     name := name, label := label, current_value := none,
                     notifications_sent := tr'.notification_count,
                     date_time := tr.missing_time })
    else some (⟨d, tracker0⟩, none)
  else some (⟨d, tracker0⟩, none)

/-- Embedding of `Notify.check_value_returned` in `notify.py`: guarded by `counter > 0`;
inside the guard `self.missing_observations[observation]` is accessed
unguarded (`none` = `KeyError`) and — unlike `pushover.py` — the tracker entry
is never deleted. -/
def check_value_returned (name label : String) (s : MissingState)
    (value now : Int) : Option (MissingState × Option NotifyResult) :=
  if 0 < s.detail.counter then
    match s.tracker with
    | none => none
    | some tr =>
      let res : Option NotifyResult :=
        if 0 < tr.notification_count then
          if s.detail.return_notification then
            some { rtype := "returned", threshold_value := none,
                   name := name, label := label, current_value := some value,
                   notifications_sent := tr.notification_count,
                   date_time := tr.missing_time }
          else none
        else none
      let d := { s.detail with counter := 0, last_sent_timestamp := 1 }
      let d := if d.last_sent_timestamp = 0 then { d with last_sent_timestamp := 1 } else d
      some (⟨d, s.tracker⟩, res)
  else
    let d :=
      if s.detail.last_sent_timestamp = 0 then
        { s.detail with last_sent_timestamp := 1 }
      else s.detail
    some (⟨d, s.tracker⟩, none)

/-- The `min` slice of `Notify._process_data`: run `check_min_value`; if it
produced a result and `send_notification` succeeded (`sendOk`), set the
check's `last_sent_timestamp` to `now` — and nothing else. -/
def process_min (name label : String) (d : ObservationDetail)
    (value now : Int) (sendOk : Bool) :
    Option (ObservationDetail × Option NotifyResult) :=
  match check_min_value name label d value now with
  | none => none
  | some (d', res) =>
    match res with
    | some r =>
      if sendOk then some ({ d' with last_sent_timestamp := now }, some r)
      else some (d', some r)
    | none => some (d', none)

/-- The `max` slice of `Notify._process_data`: run `check_max_value`; on a
result whose send succeeded, set `last_sent_timestamp = now` — and nothing
else. -/
def process_max (name label : String) (d : ObservationDetail)
    (value now : Int) (sendOk : Bool) :
    Option (ObservationDetail × Option NotifyResult) :=
  match check_max_value name label d value now with
  | none => none
  | some (d', res) =>
    match res with
    | some r =>
      if sendOk then some ({ d' with last_sent_timestamp := now }, some r)
      else some (d', some r)
    | none => some (d', none)

/-- The `equal` slice of `Notify._process_data`: run `check_equal_value`; on
a result whose send succeeded, set `last_sent_timestamp = now` — and nothing
else. -/
def process_equal (name label : String) (d : ObservationDetail)
    (value now : Int) (sendOk : Bool) :
    Option (ObservationDetail × Option NotifyResult) :=
  match check_equal_value name label d value now with
  | none => none
  | some (d', res) =>
    match res with
    | some r =>
      if sendOk then some ({ d' with last_sent_timestamp := now }, some r)
      else some (d', some r)
    | none => some (d', none)

/-- The `missing` slice of `Notify._process_data`: run `check_missing_value`;
on a result whose send succeeded, set the missing check's
`last_sent_timestamp = now` — the counter and the tracker entry are left as
the evaluator produced them. -/
def process_missing (name label : String) (s : MissingState)
    (now : Int) (sendOk : Bool) :
    Option (MissingState × Option NotifyResult) :=
  match check_missing_value name label s now with
  | none => none
  | some (s', res) =>
    match res with
    | some r =>
      if sendOk then
        some (⟨{ s'.detail with last_sent_timestamp := now }, s'.tracker⟩, some r)
      else some (s', some r)
    | none => some (s', none)

/-- One observation's slice of `Notify._process_data`.  `batchVal` models the
incoming record as in the pushover variant: `none` when the key is absent,
`some none` when the key is present with value `None`, `some (some v)`
otherwise.  A present non-null value runs returned (if a missing check is
configured) then min, max and equal; an absent key runs the missing check;
each produced result is sent, and on success (`sendOk`) only the involved
check's `last_sent_timestamp` is set to `now` — except for a returned result,
which triggers no state update by the caller.  A `KeyError` in any check
(`none`) aborts the cycle. -/
def process_observation (name label : String) (sendOk : Bool)
    (batchVal : Option (Option Int)) (now : Int) (s : ObsState) :
    Option (ObsState × List NotifyResult) :=
  match batchVal with
  | some (some v) =>
    let step1 : Option (ObsState × List NotifyResult) :=
      match s.missingD with
      | some md =>
        match check_value_returned name label ⟨md, s.tracker⟩ v now with
        | none => none
        | some (ms, res) =>
          some ({ s with missingD := some ms.detail, tracker := ms.tracker },
                match res with | some r => [r] | none => [])
      | none => some (s, [])
    match step1 with
    | none => none
    | some (s1, rs1) =>
      let step2 : Option (ObsState × List NotifyResult) :=
        match s1.minD with
        | some dm =>
          match check_min_value name label dm v now with
          | none => none
          | some (d', res) =>
            match res with
            | some r =>
              if sendOk then
                some ({ s1 with minD := some { d' with last_sent_timestamp := now } }, [r])
              else some ({ s1 with minD := some d' }, [r])
            | none => some ({ s1 with minD := some d' }, [])
        | none => some (s1, [])
      match step2 with
      | none => none
      | some (s2, rs2) =>
        let step3 : Option (ObsState × List NotifyResult) :=
          match s2.maxD with
          | some dm =>
            match check_max_value name label dm v now with
            | none => none
            | some (d', res) =>
              match res with
              | some r =>
                if sendOk then
                  some ({ s2 with maxD := some { d' with last_sent_timestamp := now } }, [r])
                else some ({ s2 with maxD := some d' }, [r])
              | none => some ({ s2 with maxD := some d' }, [])
          | none => some (s2, [])
        match step3 with
        | none => none
        | some (s3, rs3) =>
          let step4 : Option (ObsState × List NotifyResult) :=
            match s3.equalD with
            | some dm =>
              match check_equal_value name label dm v now with
              | none => none
              | some (d', res) =>
                match res with
                | some r =>
                  if sendOk then
                    some ({ s3 with equalD := some { d' with last_sent_timestamp := now } }, [r])
                  else some ({ s3 with equalD := some d' }, [r])
                | none => some ({ s3 with equalD := some d' }, [])
            | none => some (s3, [])
          match step4 with
          | none => none
          | some (s4, rs4) => some (s4, rs1 ++ rs2 ++ rs3 ++ rs4)
  | some none => some (s, [])
  | none =>
    match s.missingD with
    | some md =>
      match check_missing_value name label ⟨md, s.tracker⟩ now with
      | none => none
      | some (ms, res) =>
        match res with
        | some r =>
          if sendOk then
            some ({ s with
                      missingD := some { ms.detail with last_sent_timestamp := now },
                      tracker := ms.tracker }, [r])
          else some ({ s with missingD := some ms.detail, tracker := ms.tracker }, [r])
        | none => some ({ s with missingD := some ms.detail, tracker := ms.tracker }, [])
    | none => some (s, [])

end Notify

/-- How Python's `str.format` renders the optional numeric fields of a result
dictionary (`str(None)` is `"None"`). -/
def pyStr : Option Int → String
  | some v => toString v
  | none => "None"

namespace PushOver

/-- Embedding of `PushOver.build_message` in `notify.py`: the nested
`msg_template[threshold_type][msg_data['type']]` lookup raises `KeyError`
(`none`) for any type outside the table. -/
def build_message (fmt : Int → String) (threshold_type : String)
    (m : NotifyResult) : Option String :=
  if threshold_type = "missing" then
    some (m.name ++ m.label ++ " missing at " ++ fmt m.date_time ++ ", " ++
      toString m.notifications_sent ++ " notifications sent.\n")
  else if threshold_type = "returned" then
    some (m.name ++ m.label ++ " missing at " ++ fmt m.date_time ++
      " returned with value " ++ pyStr m.current_value ++ ", " ++
      toString m.notifications_sent ++ " notification sent.\n")
  else if threshold_type = "equal" then
    if m.rtype = "outside" then
      some ("At " ++ fmt m.date_time ++ " " ++ m.name ++ m.label ++
        " is no longer equal to threshold of " ++ pyStr m.threshold_value ++
        ". Current value is " ++ pyStr m.current_value ++ ". " ++
        toString m.notifications_sent ++ " sent.\n")
    else if m.rtype = "within" then
      some (m.name ++ m.label ++ " Not Equal at " ++ fmt m.date_time ++
        " is within threshold with value " ++ pyStr m.current_value ++ ", " ++
        toString m.notifications_sent ++ " notifications sent.\n")
    else none
  else if threshold_type = "max" then
    if m.rtype = "outside" then
      some ("At " ++ fmt m.date_time ++ " " ++ m.name ++ m.label ++
        " went above threshold of " ++ pyStr m.threshold_value ++
        ". Current value is " ++ pyStr m.current_value ++ ". " ++
        toString m.notifications_sent ++ " sent.\n")
    else if m.rtype = "within" then
      some (m.name ++ m.label ++ " over Max threshold at " ++ fmt m.date_time ++
        " is within threshold with value " ++ pyStr m.current_value ++ ", " ++
        toString m.notifications_sent ++ " notifications sent.\n")
    else none
  else if threshold_type = "min" then
    if m.rtype = "outside" then
      some ("At " ++ fmt m.date_time ++ " " ++ m.name ++ m.label ++
        " went below threshold of " ++ pyStr m.threshold_value ++
        ". Current value is " ++ pyStr m.current_value ++ ". " ++
        toString m.notifications_sent ++ " sent.\n")
    else if m.rtype = "within" then
      some (m.name ++ m.label ++ " over Min threshold at " ++ fmt m.date_time ++
        " is within threshold with value " ++ pyStr m.current_value ++ ", " ++
        toString m.notifications_sent ++ " notifications sent.\n")
    else none
  else none

end PushOver

/-- The spec's "min cleared" message template, written from the spec's words
(for the refinement comparison of claim C9):
`{name}{label} over Min threshold at {ts} is within threshold with value
{current_value}, {count} notifications sent.` -/
def spec_min_cleared_message (fmt : Int → String) (name label : String)
    (ts current_value : Int) (count : Nat) : String :=
  name ++ label ++ " over Min threshold at " ++ fmt ts ++
    " is within threshold with value " ++ toString current_value ++ ", " ++
    toString count ++ " notifications sent."

namespace Notify

/-- The states of one observation's missing-check slice (`notify.py`) that can
arise at runtime: the fresh state built by `init_observations`, closed under
`check_missing_value` on an absent cycle, `check_value_returned` on a present
cycle, and the `_process_data` post-send timestamp update.  Steps are only
taken when the operation completes without a `KeyError`. -/
inductive Reach : MissingState → Prop
  | init (d : ObservationDetail) (hc : d.counter = 0) (hl : d.last_sent_timestamp = 0) :
      Reach ⟨d, none⟩
  | stepMissing (s s' : MissingState) (name label : String) (now : Int)
      (r : Option NotifyResult) (h : Reach s)
      (he : check_missing_value name label s now = some (s', r)) : Reach s'
  | stepReturned (s s' : MissingState) (name label : String) (value now : Int)
      (r : Option NotifyResult) (h : Reach s)
      (he : check_value_returned name label s value now = some (s', r)) : Reach s'
  | stepPostSend (s : MissingState) (now : Int) (h : Reach s) :
      Reach ⟨{ s.detail with last_sent_timestamp := now }, s.tracker⟩

end Notify

/-- A concrete timestamp rendering standing in for `format_timestamp` in
concrete evaluations. -/
def fmtTS : Int → String := fun t => "<" ++ toString t ++ ">"

/-- C3: the claim says that after a 4xx response records a client error,
every later `throttle_notification` call returns `true` forever.  The code
contradicts this (and its own docstring, which promises that sending stops
with an error logged every `client_error_log_frequency` seconds): at the
failing input below a client error is recorded at time 1000, yet the call at
time 4600 — one full log-frequency later — falls through both windows and
returns `false`, so sending resumes. -/
theorem C3_client_error_resumes_sends :
    (⟨3600, 3600, 1000, 1000, 0⟩ : PusherState).client_error_timestamp ≠ 0 ∧
    (Pusher.throttle_notification ⟨3600, 3600, 1000, 1000, 0⟩ 4600).2 = false := by
  decide

/-- C5 counterexample: an observation configured with a missing check whose
key is present in the batch but maps to a null value (`some none`) is NOT
treated as missing — `_process_data` runs neither branch, so the state
(missing counter still 0, no tracker entry) and the pusher state are returned
unchanged and no message is produced. -/
theorem C5_counterexample :
    Pushover.process_observation fmtTS "T" "" true 200 100 (some none)
        ⟨3600, 3600, 0, 0, 0⟩
        ⟨none, none, none, some ⟨0, 10, 3600, true, 0, 0, none⟩, none⟩ =
      (⟨none, none, none, some ⟨0, 10, 3600, true, 0, 0, none⟩, none⟩,
       ⟨3600, 3600, 0, 0, 0⟩, []) ∧
    (Pushover.process_observation fmtTS "T" "" true 200 100 (some none)
        ⟨3600, 3600, 0, 0, 0⟩
        ⟨none, none, none, some ⟨0, 10, 3600, true, 0, 0, none⟩, none⟩).1.tracker.isSome
      = false := by
  decide

/-- C5 (amended): a cycle in which the observation's key is present in the
batch but maps to a null value runs no check at all — in both variants,
`_process_data` leaves every check state, the tracker and the transport state
unchanged and produces no message or result; only key absence triggers the
missing check. -/
theorem C5_null_value_runs_nothing (fmt : Int → String) (name label : String)
    (push sendOk : Bool) (code now : Int) (p : PusherState) (s : ObsState) :
    Pushover.process_observation fmt name label push code now (some none) p s =
      (s, p, []) ∧
    Notify.process_observation name label sendOk (some none) now s =
      some (s, []) := ⟨rfl, rfl⟩

/-- C7 counterexample: for a fresh observation that has never gone missing
(no tracker entry, counter 0, `last_sent_timestamp` still the startup 0),
`check_value_returned` is NOT state-preserving: it sets the missing check's
`last_sent_timestamp` to the sentinel 1. -/
theorem C7_counterexample :
    Pushover.check_value_returned fmtTS "T" "" ⟨⟨0, 10, 3600, true, 0, 0, none⟩, none⟩ 5 100 =
      (⟨⟨0, 10, 3600, true, 1, 0, none⟩, none⟩, "") ∧
    (Pushover.check_value_returned fmtTS "T" ""
        ⟨⟨0, 10, 3600, true, 0, 0, none⟩, none⟩ 5 100).1.detail.last_sent_timestamp ≠ 0 := by
  decide

/-- C7 (amended): for an observation that has never gone missing (no tracker
entry and missing counter 0), `check_value_returned` — in both variants —
produces no message/event and leaves all state unchanged, except that a
`last_sent_timestamp` still equal to the startup value 0 is set to the
sentinel 1. -/
theorem C7_never_missing_no_event (fmt : Int → String) (name label : String)
    (s : MissingState) (value now : Int)
    (htr : s.tracker = none) (hc : s.detail.counter = 0) :
    Pushover.check_value_returned fmt name label s value now =
      (⟨if s.detail.last_sent_timestamp = 0 then
          { s.detail with last_sent_timestamp := 1 } else s.detail, none⟩, "") ∧
    Notify.check_value_returned name label s value now =
      some (⟨if s.detail.last_sent_timestamp = 0 then
          { s.detail with last_sent_timestamp := 1 } else s.detail, none⟩, none) := by
  constructor
  · unfold Pushover.check_value_returned
    rw [htr]
  · unfold Notify.check_value_returned
    rw [hc, htr]
    simp

/-- C7 witness: the amended statement at a concrete never-missing state whose
`last_sent_timestamp` is nonzero, where the call is a strict no-op. -/
theorem C7_witness :
    Pushover.check_value_returned fmtTS "n" "" ⟨⟨0, 10, 3600, true, 55, 0, none⟩, none⟩ 7 100 =
      (⟨⟨0, 10, 3600, true, 55, 0, none⟩, none⟩, "") ∧
    Notify.check_value_returned "n" "" ⟨⟨0, 10, 3600, true, 55, 0, none⟩, none⟩ 7 100 =
      some (⟨⟨0, 10, 3600, true, 55, 0, none⟩, none⟩, none) := by
  have h := C7_never_missing_no_event fmtTS "n" ""
    ⟨⟨0, 10, 3600, true, 55, 0, none⟩, none⟩ 7 100 rfl rfl
  simpa using h

/-- Helper: string concatenation is associative. -/
theorem str_append_assoc (a b c : String) : a ++ b ++ c = a ++ (b ++ c) := by
  apply String.ext
  simp [String.data_append]

/-- Helper: a violating value inside the wait-time window advances the counter
but produces no result (`notify.py` variant, any comparator). -/
theorem Notify.check_threshold_window (violates : Int → Int → Bool)
    (name label : String) (d : ObservationDetail) (value now : Int)
    (hv : violates value d.value = true)
    (hwin : |now - d.last_sent_timestamp| < d.wait_time) :
    Notify.check_threshold violates name label d value now =
      some (if d.counter = 0 then
              { d with threshold_passed := some ⟨now, 0⟩, counter := d.counter + 1 }
            else { d with counter := d.counter + 1 }, none) := by
  unfold Notify.check_threshold
  by_cases hc : d.counter = 0 <;>
    simp [hv, hc, not_le.mpr hwin]

/-- C2 counterexample: with `count = 1`, a violation at time 9000 fires and is
successfully sent (`push_one` at 200 sets `last_sent_timestamp = 9000`,
`counter = 0`); the very next evaluation at time 9001 — well inside the
3600-second wait window — still produces a notification, namely the
cleared-violation message, refuting "no notification of the same check while
`now - last_sent_timestamp < wait_time`". -/
theorem C2_counterexample :
    (Pushover.check_min_value fmtTS "T" "" ⟨10, 1, 3600, true, 0, 0, none⟩ 5 9000).2 ≠ "" ∧
    (Pusher.push_one true 200 9000 ⟨3600, 3600, 0, 0, 0⟩
      (Pushover.check_min_value fmtTS "T" "" ⟨10, 1, 3600, true, 0, 0, none⟩ 5 9000).1).2
        = ⟨10, 1, 3600, true, 9000, 0, some ⟨9000, 1⟩⟩ ∧
    (9001 : Int) - 9000 < 3600 ∧
    (Pushover.check_min_value fmtTS "T" ""
      (Pusher.push_one true 200 9000 ⟨3600, 3600, 0, 0, 0⟩
        (Pushover.check_min_value fmtTS "T" "" ⟨10, 1, 3600, true, 0, 0, none⟩ 5 9000).1).2
      15 9001).2 ≠ "" := by
  decide

/-- C2 (amended): once `last_sent_timestamp` has been set by a successful
send, every subsequent evaluation on which the violation condition still
holds — a violating value for min/max/equal (any comparator in `notify.py`;
min, max and equal in `pushover.py`), or the observation still absent for the
missing check (both variants) — produces no notification while
`|now - last_sent_timestamp| < wait_time`, however large the counter; an
evaluation on which the condition has cleared may still produce a
cleared/returned notification inside the window (see the counterexample). -/
theorem C2_wait_window_blocks_violation (fmt : Int → String) (name label : String)
    (d : ObservationDetail) (tr : Option TrackerEntry) (value now : Int)
    (hwin : |now - d.last_sent_timestamp| < d.wait_time) :
    (value < d.value → (Pushover.check_min_value fmt name label d value now).2 = "") ∧
    (d.value < value → (Pushover.check_max_value fmt name label d value now).2 = "") ∧
    (value ≠ d.value → (Pushover.check_equal_value fmt name label d value now).2 = "") ∧
    (∀ violates : Int → Int → Bool, violates value d.value = true →
      ∃ d', Notify.check_threshold violates name label d value now = some (d', none)) ∧
    (Pushover.check_missing_value fmt name label ⟨d, tr⟩ now).2 = "" ∧
    (∃ s', Notify.check_missing_value name label ⟨d, tr⟩ now = some (s', none)) := by
  have hlt : ¬ (d.wait_time ≤ now - d.last_sent_timestamp) :=
    not_le.mpr (lt_of_le_of_lt (le_abs_self _) hwin)
  refine ⟨?_, ?_, ?_, ?_, ?_, ?_⟩
  · intro hv
    unfold Pushover.check_min_value
    simp [hv, not_le.mpr hwin]
  · intro hv
    unfold Pushover.check_max_value
    simp [hv, not_le.mpr hwin]
  · intro hv
    unfold Pushover.check_equal_value
    simp [hv, not_le.mpr hwin]
  · intro violates hv
    exact ⟨_, Notify.check_threshold_window violates name label d value now hv hwin⟩
  · simp [Pushover.check_missing_value, hlt]
  · refine ⟨⟨{ d with counter := d.counter + 1 },
        if d.counter = 0 then some ⟨now, 0⟩ else tr⟩, ?_⟩
    simp [Notify.check_missing_value, hlt]

/-- C2 witness: the amended statement at a concrete post-send state
(`last_sent_timestamp = 9000`, huge counter 999, a tracker entry) evaluated
at time 9001 for every check kind: min with value 5, max with 15, equal with
7, the `notify.py` comparator evaluator, and the missing check in both
variants. -/
theorem C2_witness :
    |(9001 : Int) - 9000| < 3600 ∧
    (Pushover.check_min_value fmtTS "T" ""
      ⟨10, 5, 3600, true, 9000, 999, some ⟨8000, 1⟩⟩ 5 9001).2 = "" ∧
    (Pushover.check_max_value fmtTS "T" ""
      ⟨10, 5, 3600, true, 9000, 999, some ⟨8000, 1⟩⟩ 15 9001).2 = "" ∧
    (Pushover.check_equal_value fmtTS "T" ""
      ⟨10, 5, 3600, true, 9000, 999, some ⟨8000, 1⟩⟩ 7 9001).2 = "" ∧
    (∃ d', Notify.check_threshold (fun a b => decide (a < b)) "T" ""
      ⟨10, 5, 3600, true, 9000, 999, some ⟨8000, 1⟩⟩ 5 9001 = some (d', none)) ∧
    (Pushover.check_missing_value fmtTS "T" ""
      ⟨⟨10, 5, 3600, true, 9000, 999, some ⟨8000, 1⟩⟩, some ⟨8000, 1⟩⟩ 9001).2 = "" ∧
    (∃ s', Notify.check_missing_value "T" ""
      ⟨⟨10, 5, 3600, true, 9000, 999, some ⟨8000, 1⟩⟩, some ⟨8000, 1⟩⟩ 9001 =
        some (s', none)) := by
  have h5 := C2_wait_window_blocks_violation fmtTS "T" ""
    ⟨10, 5, 3600, true, 9000, 999, some ⟨8000, 1⟩⟩ (some ⟨8000, 1⟩) 5 9001 (by decide)
  have h15 := C2_wait_window_blocks_violation fmtTS "T" ""
    ⟨10, 5, 3600, true, 9000, 999, some ⟨8000, 1⟩⟩ (some ⟨8000, 1⟩) 15 9001 (by decide)
  have h7 := C2_wait_window_blocks_violation fmtTS "T" ""
    ⟨10, 5, 3600, true, 9000, 999, some ⟨8000, 1⟩⟩ (some ⟨8000, 1⟩) 7 9001 (by decide)
  exact ⟨by decide, h5.1 (by norm_num), h15.2.1 (by norm_num), h7.2.2.1 (by norm_num),
    h5.2.2.2.1 (fun a b => decide (a < b)) rfl, h5.2.2.2.2.1, h5.2.2.2.2.2⟩

/-- C4 counterexample: in `notify.py`, a min check with `count = 1` fires at
time 100 and the send succeeds, yet `_process_data` only sets
`last_sent_timestamp = now`; the counter stays 1 instead of being reset to 0,
refuting "both updates, for every check kind whose event was sent". -/
theorem C4_counterexample :
    Notify.process_min "T" "" ⟨10, 1, 0, true, 0, 0, none⟩ 5 100 true =
      some (⟨10, 1, 0, true, 100, 1, some ⟨100, 1⟩⟩,
            some ⟨"outside", some 10, "T", "", some 5, 1, 100⟩) ∧
    (⟨10, 1, 0, true, 100, 1, some ⟨100, 1⟩⟩ : ObservationDetail).counter ≠ 0 := by
  decide

/-- C4 (amended): on HTTP 200, `pushover.py`'s `check_response` sets
`last_sent_timestamp = now` AND `counter = 0` for every check whose message
was sent; in `notify.py` the successful-send update of every slice of
`_process_data` — min, max, equal and missing — sets only
`last_sent_timestamp = now`, leaving the counter (and, for missing, the
tracker entry) exactly as the evaluator left them. -/
theorem C4_success_updates (p : PusherState) (now : Int)
    (msgs : CheckKey → String) (details : CheckKey → ObservationDetail)
    (k : CheckKey) (hm : msgs k ≠ "")
    (name label : String) (dmin d1 dmax d2 deq d3 : ObservationDetail)
    (smis smis' : MissingState) (v1 v2 v3 t : Int)
    (r1 r2 r3 r4 : NotifyResult)
    (h1 : Notify.process_min name label dmin v1 t true = some (d1, some r1))
    (h2 : Notify.process_max name label dmax v2 t true = some (d2, some r2))
    (h3 : Notify.process_equal name label deq v3 t true = some (d3, some r3))
    (h4 : Notify.process_missing name label smis t true = some (smis', some r4)) :
    (((Pusher.check_response p 200 now msgs details).2 k).last_sent_timestamp = now ∧
     ((Pusher.check_response p 200 now msgs details).2 k).counter = 0) ∧
    (d1.last_sent_timestamp = t ∧
     ∃ dd, Notify.check_min_value name label dmin v1 t = some (dd, some r1) ∧
       d1.counter = dd.counter) ∧
    (d2.last_sent_timestamp = t ∧
     ∃ dd, Notify.check_max_value name label dmax v2 t = some (dd, some r2) ∧
       d2.counter = dd.counter) ∧
    (d3.last_sent_timestamp = t ∧
     ∃ dd, Notify.check_equal_value name label deq v3 t = some (dd, some r3) ∧
       d3.counter = dd.counter) ∧
    (smis'.detail.last_sent_timestamp = t ∧
     ∃ ss, Notify.check_missing_value name label smis t = some (ss, some r4) ∧
       smis'.detail.counter = ss.detail.counter ∧ smis'.tracker = ss.tracker) := by
  refine ⟨?_, ?_, ?_, ?_, ?_⟩
  · unfold Pusher.check_response
    simp [hm]
  · unfold Notify.process_min at h1
    cases he : Notify.check_min_value name label dmin v1 t with
    | none => rw [he] at h1; exact absurd h1 (by simp)
    | some p1 =>
      obtain ⟨dd, res⟩ := p1
      rw [he] at h1
      cases res with
      | none => simp at h1
      | some r0 =>
        simp only [if_true, Option.some.injEq, Prod.mk.injEq] at h1
        obtain ⟨hd, hr⟩ := h1
        subst hd
        subst hr
        exact ⟨rfl, ⟨dd, rfl, rfl⟩⟩
  · unfold Notify.process_max at h2
    cases he : Notify.check_max_value name label dmax v2 t with
    | none => rw [he] at h2; exact absurd h2 (by simp)
    | some p1 =>
      obtain ⟨dd, res⟩ := p1
      rw [he] at h2
      cases res with
      | none => simp at h2
      | some r0 =>
        simp only [if_true, Option.some.injEq, Prod.mk.injEq] at h2
        obtain ⟨hd, hr⟩ := h2
        subst hd
        subst hr
        exact ⟨rfl, ⟨dd, rfl, rfl⟩⟩
  · unfold Notify.process_equal at h3
    cases he : Notify.check_equal_value name label deq v3 t with
    | none => rw [he] at h3; exact absurd h3 (by simp)
    | some p1 =>
      obtain ⟨dd, res⟩ := p1
      rw [he] at h3
      cases res with
      | none => simp at h3
      | some r0 =>
        simp only [if_true, Option.some.injEq, Prod.mk.injEq] at h3
        obtain ⟨hd, hr⟩ := h3
        subst hd
        subst hr
        exact ⟨rfl, ⟨dd, rfl, rfl⟩⟩
  · unfold Notify.process_missing at h4
    cases he : Notify.check_missing_value name label smis t with
    | none => rw [he] at h4; exact absurd h4 (by simp)
    | some p1 =>
      obtain ⟨ss, res⟩ := p1
      rw [he] at h4
      cases res with
      | none => simp at h4
      | some r0 =>
        simp only [if_true, Option.some.injEq, Prod.mk.injEq] at h4
        obtain ⟨hs, hr⟩ := h4
        subst hs
        subst hr
        exact ⟨rfl, ⟨ss, rfl, rfl, rfl⟩⟩

/-- C4 witness: the amended statement at a concrete 200-send at time 5000:
`pushover.py` side on a counter-7 state; `notify.py` side firing every slice
— min on value 5, max on 15, equal on 7 (threshold 10, count 1) and missing
via the `last_sent_timestamp == 0` bypass. -/
theorem C4_witness :
    (((Pusher.check_response ⟨3600, 3600, 0, 0, 0⟩ 200 5000 (fun _ => "m")
        (fun _ => ⟨10, 1, 0, true, 0, 7, none⟩)).2 CheckKey.min).last_sent_timestamp = 5000 ∧
      ((Pusher.check_response ⟨3600, 3600, 0, 0, 0⟩ 200 5000 (fun _ => "m")
        (fun _ => ⟨10, 1, 0, true, 0, 7, none⟩)).2 CheckKey.min).counter = 0) ∧
    ((⟨10, 1, 0, true, 5000, 1, some ⟨5000, 1⟩⟩ : ObservationDetail).last_sent_timestamp = 5000 ∧
     ∃ dd, Notify.check_min_value "T" "" ⟨10, 1, 0, true, 0, 0, none⟩ 5 5000 =
        some (dd, some ⟨"outside", some 10, "T", "", some 5, 1, 5000⟩) ∧
       (⟨10, 1, 0, true, 5000, 1, some ⟨5000, 1⟩⟩ : ObservationDetail).counter = dd.counter) ∧
    ((⟨10, 1, 0, true, 5000, 1, some ⟨5000, 1⟩⟩ : ObservationDetail).last_sent_timestamp = 5000 ∧
     ∃ dd, Notify.check_max_value "T" "" ⟨10, 1, 0, true, 0, 0, none⟩ 15 5000 =
        some (dd, some ⟨"outside", some 10, "T", "", some 15, 1, 5000⟩) ∧
       (⟨10, 1, 0, true, 5000, 1, some ⟨5000, 1⟩⟩ : ObservationDetail).counter = dd.counter) ∧
    ((⟨10, 1, 0, true, 5000, 1, some ⟨5000, 1⟩⟩ : ObservationDetail).last_sent_timestamp = 5000 ∧
     ∃ dd, Notify.check_equal_value "T" "" ⟨10, 1, 0, true, 0, 0, none⟩ 7 5000 =
        some (dd, some ⟨"outside", some 10, "T", "", some 7, 1, 5000⟩) ∧
       (⟨10, 1, 0, true, 5000, 1, some ⟨5000, 1⟩⟩ : ObservationDetail).counter = dd.counter) ∧
    ((⟨⟨0, 10, 3600, true, 5000, 1, none⟩, some ⟨5000, 1⟩⟩ :
        MissingState).detail.last_sent_timestamp = 5000 ∧
     ∃ ss, Notify.check_missing_value "T" "" ⟨⟨0, 10, 3600, true, 0, 0, none⟩, none⟩ 5000 =
        some (ss, some ⟨"missing", none, "T", "", none, 1, 5000⟩) ∧
       (⟨⟨0, 10, 3600, true, 5000, 1, none⟩, some ⟨5000, 1⟩⟩ :
          MissingState).detail.counter = ss.detail.counter ∧
       (⟨⟨0, 10, 3600, true, 5000, 1, none⟩, some ⟨5000, 1⟩⟩ :
          MissingState).tracker = ss.tracker) :=
  C4_success_updates ⟨3600, 3600, 0, 0, 0⟩ 5000 (fun _ => "m")
    (fun _ => ⟨10, 1, 0, true, 0, 7, none⟩) CheckKey.min (by decide) "T" ""
    ⟨10, 1, 0, true, 0, 0, none⟩ ⟨10, 1, 0, true, 5000, 1, some ⟨5000, 1⟩⟩
    ⟨10, 1, 0, true, 0, 0, none⟩ ⟨10, 1, 0, true, 5000, 1, some ⟨5000, 1⟩⟩
    ⟨10, 1, 0, true, 0, 0, none⟩ ⟨10, 1, 0, true, 5000, 1, some ⟨5000, 1⟩⟩
    ⟨⟨0, 10, 3600, true, 0, 0, none⟩, none⟩
    ⟨⟨0, 10, 3600, true, 5000, 1, none⟩, some ⟨5000, 1⟩⟩ 5 15 7 5000
    ⟨"outside", some 10, "T", "", some 5, 1, 5000⟩
    ⟨"outside", some 10, "T", "", some 15, 1, 5000⟩
    ⟨"outside", some 10, "T", "", some 7, 1, 5000⟩
    ⟨"missing", none, "T", "", none, 1, 5000⟩
    (by decide) (by decide) (by decide) (by decide)

/-- C9 counterexample: the cleared-min message `pushover.py` actually builds
reads "under Min threshold", not the spec template's "over Min threshold":
at a concrete cleared violation the produced body differs from the template
instance. -/
theorem C9_counterexample :
    (Pushover.check_min_value fmtTS "Temp" ""
        ⟨10, 1, 3600, true, 9000, 0, some ⟨9000, 1⟩⟩ 15 9001).2 ≠
      spec_min_cleared_message fmtTS "Temp" "" 9000 15 1 := by
  decide

/-- C9 (amended): for a min check that clears with `notifications_sent > 0`
and `return_notification` true, `notify.py`'s `build_message` produces
exactly the spec template followed by a trailing newline, while
`pushover.py`'s `check_min_value` produces the same text with
"under Min threshold" in place of "over Min threshold". -/
theorem C9_min_cleared_template (fmt : Int → String) (name label : String)
    (tv ts cur : Int) (cnt : Nat) (d : ObservationDetail) (tp : ThresholdPassed)
    (value now : Int) (hv : ¬ value < d.value) (htp : d.threshold_passed = some tp)
    (hn : 0 < tp.notification_count) (hr : d.return_notification = true) :
    PushOver.build_message fmt "min" ⟨"within", some tv, name, label, some cur, cnt, ts⟩ =
      some (spec_min_cleared_message fmt name label ts cur cnt ++ "\n") ∧
    (Pushover.check_min_value fmt name label d value now).2 =
      name ++ label ++ " under Min threshold at " ++ fmt tp.timestamp ++
        " is within threshold with value " ++ toString value ++ ", " ++
        toString tp.notification_count ++ " notifications sent.\n" := by
  constructor
  · have hlit : (" notifications sent." ++ "\n" : String) = " notifications sent.\n" := rfl
    simp only [PushOver.build_message, spec_min_cleared_message, pyStr]
    norm_num
    simp [str_append_assoc, hlit]
  · unfold Pushover.check_min_value
    rw [if_neg hv, htp]
    simp [hn, hr]

/-- C9 witness: the amended statement at the concrete cleared violation of the
counterexample. -/
theorem C9_witness :
    PushOver.build_message fmtTS "min" ⟨"within", some 10, "Temp", "", some 15, 1, 9000⟩ =
      some (spec_min_cleared_message fmtTS "Temp" "" 9000 15 1 ++ "\n") ∧
    (Pushover.check_min_value fmtTS "Temp" ""
        ⟨10, 1, 3600, true, 9000, 0, some ⟨9000, 1⟩⟩ 15 9001).2 =
      "Temp" ++ "" ++ " under Min threshold at " ++ fmtTS 9000 ++
        " is within threshold with value " ++ toString (15 : Int) ++ ", " ++
        toString (1 : Nat) ++ " notifications sent.\n" :=
  C9_min_cleared_template fmtTS "Temp" "" 10 9000 15 1
    ⟨10, 1, 3600, true, 9000, 0, some ⟨9000, 1⟩⟩ ⟨9000, 1⟩ 15 9001
    (by decide) rfl (by decide) rfl

/-- Helper: a violating value whose incremented counter is still below the
count threshold advances the counter and produces no result, whatever the
time delta (`notify.py` variant). -/
theorem Notify.check_threshold_quiet (violates : Int → Int → Bool)
    (name label : String) (d : ObservationDetail) (value now : Int)
    (hv : violates value d.value = true) (hcount : d.counter + 1 < d.count) :
    Notify.check_threshold violates name label d value now =
      some (if d.counter = 0 then
              { d with threshold_passed := some ⟨now, 0⟩, counter := d.counter + 1 }
            else { d with counter := d.counter + 1 }, none) := by
  unfold Notify.check_threshold
  by_cases hc : d.counter = 0 <;>
    · simp only [hv, hc, if_true, if_false, ite_true, ite_false]
      split
      · rw [if_neg (by simp; omega)]
      · rfl

/-- Helper: a violating value meeting both the time and count thresholds with
an existing violation record fires, incrementing `notification_count` and
reporting it (`notify.py` variant). -/
theorem Notify.check_threshold_fire (violates : Int → Int → Bool)
    (name label : String) (d : ObservationDetail) (value now : Int)
    (tp : ThresholdPassed)
    (hv : violates value d.value = true) (hc : d.counter ≠ 0)
    (htp : d.threshold_passed = some tp)
    (htime : d.wait_time ≤ |now - d.last_sent_timestamp|)
    (hcount : d.count ≤ d.counter + 1) :
    Notify.check_threshold violates name label d value now =
      some ({ d with
                counter := d.counter + 1,
                threshold_passed := some ⟨tp.timestamp, tp.notification_count + 1⟩ },
            some ⟨"outside", some d.value, name, label, some value,
                  tp.notification_count + 1, tp.timestamp⟩) := by
  unfold Notify.check_threshold
  simp only [hv, hc, htp, if_true, if_false, ite_true, ite_false]
  rw [if_pos (by simpa using htime), if_pos (by simpa using hcount)]

/-- Helper: with `count ≤ 1` a first violating cycle meeting the time
threshold fires immediately, creating the violation record and reporting one
notification sent (`notify.py` variant). -/
theorem Notify.check_threshold_fire_first (violates : Int → Int → Bool)
    (name label : String) (d : ObservationDetail) (value now : Int)
    (hv : violates value d.value = true) (hc : d.counter = 0)
    (htime : d.wait_time ≤ |now - d.last_sent_timestamp|)
    (hcount : d.count ≤ 1) :
    Notify.check_threshold violates name label d value now =
      some ({ d with counter := 1, threshold_passed := some ⟨now, 1⟩ },
            some ⟨"outside", some d.value, name, label, some value, 1, now⟩) := by
  unfold Notify.check_threshold
  simp only [hv, hc, if_true, if_false, ite_true, ite_false]
  rw [if_pos (by simpa using htime), if_pos (by simpa using hcount)]

/-- Helper: starting from a state with counter 0, any run of violating cycles
strictly shorter than the count threshold produces no result; after `i` such
cycles the counter is `i` and the violation record was created on the first
cycle with `notification_count = 0` (`notify.py` variant). -/
theorem Notify.cycles_quiet (violates : Int → Int → Bool) (name label : String)
    (v tms : Nat → Int) (d : ObservationDetail) (hc : d.counter = 0)
    (hviol : ∀ i, i < d.count → violates (v i) d.value = true) :
    ∀ i, 1 ≤ i → i < d.count →
      Notify.cycles violates name label v tms d i =
        some ({ d with counter := i, threshold_passed := some ⟨tms 0, 0⟩ }, none) := by
  intro i h1 h2
  induction i with
  | zero => omega
  | succ j ih =>
    rcases Nat.eq_zero_or_pos j with hj | hj
    · subst hj
      simp only [Notify.cycles]
      rw [Notify.check_threshold_quiet violates name label d (v 0) (tms 0)
        (hviol 0 (by omega)) (by omega)]
      rw [if_pos hc]
      rw [hc]
    · have hstep := ih (by omega) (by omega)
      simp only [Notify.cycles, hstep]
      have hq := Notify.check_threshold_quiet violates name label
        { d with counter := j, threshold_passed := some ⟨tms 0, 0⟩ } (v j) (tms j)
        (hviol j (by omega)) (by simpa using h2)
      rw [hq]
      rw [if_neg (by simp; omega)]

/-- Helper: a violating value whose incremented counter is still below the
count threshold advances the counter, ensures the violation record, and
produces no message (`pushover.py` variant). -/
theorem Pushover.check_min_quiet (fmt : Int → String) (name label : String)
    (d : ObservationDetail) (value now : Int)
    (hv : value < d.value) (hcount : d.counter + 1 < d.count) :
    Pushover.check_min_value fmt name label d value now =
      ({ d with
           threshold_passed := some (d.threshold_passed.getD ⟨now, 0⟩),
           counter := d.counter + 1 }, "") := by
  unfold Pushover.check_min_value
  simp only [hv, if_true, ite_true]
  split
  · rw [if_neg (by simp; omega)]
  · rfl

/-- Helper: a violating value meeting both thresholds with an existing
violation record fires the below-threshold message (`pushover.py` variant). -/
theorem Pushover.check_min_fire (fmt : Int → String) (name label : String)
    (d : ObservationDetail) (value now : Int) (tp : ThresholdPassed)
    (hv : value < d.value) (htp : d.threshold_passed = some tp)
    (htime : d.wait_time ≤ |now - d.last_sent_timestamp|)
    (hcount : d.count ≤ d.counter + 1) :
    Pushover.check_min_value fmt name label d value now =
      ({ d with
           threshold_passed := some ⟨tp.timestamp, tp.notification_count + 1⟩,
           counter := d.counter + 1 },
       "At " ++ fmt tp.timestamp ++ " " ++ name ++ label ++
         " went below threshold of " ++ toString d.value ++
         ". Current value is " ++ toString value ++ ".\n") := by
  unfold Pushover.check_min_value
  rw [if_pos hv, htp]
  simp only [Option.getD_some]
  rw [if_pos (by simpa using htime), if_pos (by simpa using hcount)]

/-- Helper: a first violating cycle (no violation record yet) that meets both
thresholds fires immediately with a fresh record (`pushover.py` variant). -/
theorem Pushover.check_min_fire_first (fmt : Int → String) (name label : String)
    (d : ObservationDetail) (value now : Int)
    (hv : value < d.value) (htp : d.threshold_passed = none)
    (htime : d.wait_time ≤ |now - d.last_sent_timestamp|)
    (hcount : d.count ≤ d.counter + 1) :
    Pushover.check_min_value fmt name label d value now =
      ({ d with
           threshold_passed := some ⟨now, 1⟩,
           counter := d.counter + 1 },
       "At " ++ fmt now ++ " " ++ name ++ label ++
         " went below threshold of " ++ toString d.value ++
         ". Current value is " ++ toString value ++ ".\n") := by
  unfold Pushover.check_min_value
  rw [if_pos hv, htp]
  simp only [Option.getD_none]
  rw [if_pos (by simpa using htime), if_pos (by simpa using hcount)]

/-- Helper: from a fresh state, any run of violating cycles strictly shorter
than the count threshold produces only empty messages; after `i` cycles the
counter is `i` and the violation record carries the first cycle's time and
`notification_count = 0` (`pushover.py` variant). -/
theorem Pushover.cyclesMin_quiet (fmt : Int → String) (name label : String)
    (v tms : Nat → Int) (d : ObservationDetail)
    (hc : d.counter = 0) (htp : d.threshold_passed = none)
    (hviol : ∀ i, i < d.count → v i < d.value) :
    ∀ i, 1 ≤ i → i < d.count →
      Pushover.cyclesMin fmt name label v tms d i =
        ({ d with counter := i, threshold_passed := some ⟨tms 0, 0⟩ }, "") := by
  intro i h1 h2
  induction i with
  | zero => omega
  | succ j ih =>
    rcases Nat.eq_zero_or_pos j with hj | hj
    · subst hj
      simp only [Pushover.cyclesMin]
      rw [Pushover.check_min_quiet fmt name label d (v 0) (tms 0)
        (hviol 0 (by omega)) (by omega)]
      simp [htp, hc]
    · have hstep := ih (by omega) (by omega)
      simp only [Pushover.cyclesMin, hstep]
      have hq := Pushover.check_min_quiet fmt name label
        { d with counter := j, threshold_passed := some ⟨tms 0, 0⟩ } (v j) (tms j)
        (hviol j (by omega)) (by simpa using h2)
      rw [hq]
      rfl

/-- Helper: a violating value whose incremented counter is still below the
count threshold advances the counter, ensures the violation record, and
produces no message (`pushover.py` max variant). -/
theorem Pushover.check_max_quiet (fmt : Int → String) (name label : String)
    (d : ObservationDetail) (value now : Int)
    (hv : d.value < value) (hcount : d.counter + 1 < d.count) :
    Pushover.check_max_value fmt name label d value now =
      ({ d with
           threshold_passed := some (d.threshold_passed.getD ⟨now, 0⟩),
           counter := d.counter + 1 }, "") := by
  unfold Pushover.check_max_value
  simp only [hv, if_true, ite_true]
  split
  · rw [if_neg (by simp; omega)]
  · rfl

/-- Helper: a violating value meeting both thresholds with an existing
violation record fires the above-threshold message (`pushover.py` max
variant). -/
theorem Pushover.check_max_fire (fmt : Int → String) (name label : String)
    (d : ObservationDetail) (value now : Int) (tp : ThresholdPassed)
    (hv : d.value < value) (htp : d.threshold_passed = some tp)
    (htime : d.wait_time ≤ |now - d.last_sent_timestamp|)
    (hcount : d.count ≤ d.counter + 1) :
    Pushover.check_max_value fmt name label d value now =
      ({ d with
           threshold_passed := some ⟨tp.timestamp, tp.notification_count + 1⟩,
           counter := d.counter + 1 },
       "At " ++ fmt tp.timestamp ++ " " ++ name ++ label ++
         " went above threshold of " ++ toString d.value ++
         ". Current value is " ++ toString value ++ ".\n") := by
  unfold Pushover.check_max_value
  rw [if_pos hv, htp]
  simp only [Option.getD_some]
  rw [if_pos (by simpa using htime), if_pos (by simpa using hcount)]

/-- Helper: a first violating cycle (no violation record yet) that meets both
thresholds fires immediately with a fresh record (`pushover.py` max
variant). -/
theorem Pushover.check_max_fire_first (fmt : Int → String) (name label : String)
    (d : ObservationDetail) (value now : Int)
    (hv : d.value < value) (htp : d.threshold_passed = none)
    (htime : d.wait_time ≤ |now - d.last_sent_timestamp|)
    (hcount : d.count ≤ d.counter + 1) :
    Pushover.check_max_value fmt name label d value now =
      ({ d with
           threshold_passed := some ⟨now, 1⟩,
           counter := d.counter + 1 },
       "At " ++ fmt now ++ " " ++ name ++ label ++
         " went above threshold of " ++ toString d.value ++
         ". Current value is " ++ toString value ++ ".\n") := by
  unfold Pushover.check_max_value
  rw [if_pos hv, htp]
  simp only [Option.getD_none]
  rw [if_pos (by simpa using htime), if_pos (by simpa using hcount)]

/-- Helper: from a fresh state, any run of violating cycles strictly shorter
than the count threshold produces only empty messages (`pushover.py` max
variant). -/
theorem Pushover.cyclesMax_quiet (fmt : Int → String) (name label : String)
    (v tms : Nat → Int) (d : ObservationDetail)
    (hc : d.counter = 0) (htp : d.threshold_passed = none)
    (hviol : ∀ i, i < d.count → d.value < v i) :
    ∀ i, 1 ≤ i → i < d.count →
      Pushover.cyclesMax fmt name label v tms d i =
        ({ d with counter := i, threshold_passed := some ⟨tms 0, 0⟩ }, "") := by
  intro i h1 h2
  induction i with
  | zero => omega
  | succ j ih =>
    rcases Nat.eq_zero_or_pos j with hj | hj
    · subst hj
      simp only [Pushover.cyclesMax]
      rw [Pushover.check_max_quiet fmt name label d (v 0) (tms 0)
        (hviol 0 (by omega)) (by omega)]
      simp [htp, hc]
    · have hstep := ih (by omega) (by omega)
      simp only [Pushover.cyclesMax, hstep]
      have hq := Pushover.check_max_quiet fmt name label
        { d with counter := j, threshold_passed := some ⟨tms 0, 0⟩ } (v j) (tms j)
        (hviol j (by omega)) (by simpa using h2)
      rw [hq]
      rfl

/-- Helper: a violating value whose incremented counter is still below the
count threshold advances the counter, ensures the violation record, and
produces no message (`pushover.py` equal variant). -/
theorem Pushover.check_equal_quiet (fmt : Int → String) (name label : String)
    (d : ObservationDetail) (value now : Int)
    (hv : value ≠ d.value) (hcount : d.counter + 1 < d.count) :
    Pushover.check_equal_value fmt name label d value now =
      ({ d with
           threshold_passed := some (d.threshold_passed.getD ⟨now, 0⟩),
           counter := d.counter + 1 }, "") := by
  unfold Pushover.check_equal_value
  simp only [hv, ne_eq, not_false_eq_true, if_true, ite_true]
  split
  · rw [if_neg (by simp; omega)]
  · rfl

/-- Helper: a violating value meeting both thresholds with an existing
violation record fires the no-longer-equal message (`pushover.py` equal
variant). -/
theorem Pushover.check_equal_fire (fmt : Int → String) (name label : String)
    (d : ObservationDetail) (value now : Int) (tp : ThresholdPassed)
    (hv : value ≠ d.value) (htp : d.threshold_passed = some tp)
    (htime : d.wait_time ≤ |now - d.last_sent_timestamp|)
    (hcount : d.count ≤ d.counter + 1) :
    Pushover.check_equal_value fmt name label d value now =
      ({ d with
           threshold_passed := some ⟨tp.timestamp, tp.notification_count + 1⟩,
           counter := d.counter + 1 },
       "At " ++ fmt tp.timestamp ++ " " ++ name ++ label ++
         " is no longer equal to threshold of " ++ toString d.value ++
         ". Current value is " ++ toString value ++ ".\n") := by
  unfold Pushover.check_equal_value
  rw [if_pos hv, htp]
  simp only [Option.getD_some]
  rw [if_pos (by simpa using htime), if_pos (by simpa using hcount)]

/-- Helper: a first violating cycle (no violation record yet) that meets both
thresholds fires immediately with a fresh record (`pushover.py` equal
variant). -/
theorem Pushover.check_equal_fire_first (fmt : Int → String) (name label : String)
    (d : ObservationDetail) (value now : Int)
    (hv : value ≠ d.value) (htp : d.threshold_passed = none)
    (htime : d.wait_time ≤ |now - d.last_sent_timestamp|)
    (hcount : d.count ≤ d.counter + 1) :
    Pushover.check_equal_value fmt name label d value now =
      ({ d with
           threshold_passed := some ⟨now, 1⟩,
           counter := d.counter + 1 },
       "At " ++ fmt now ++ " " ++ name ++ label ++
         " is no longer equal to threshold of " ++ toString d.value ++
         ". Current value is " ++ toString value ++ ".\n") := by
  unfold Pushover.check_equal_value
  rw [if_pos hv, htp]
  simp only [Option.getD_none]
  rw [if_pos (by simpa using htime), if_pos (by simpa using hcount)]

/-- Helper: from a fresh state, any run of violating cycles strictly shorter
than the count threshold produces only empty messages (`pushover.py` equal
variant). -/
theorem Pushover.cyclesEqual_quiet (fmt : Int → String) (name label : String)
    (v tms : Nat → Int) (d : ObservationDetail)
    (hc : d.counter = 0) (htp : d.threshold_passed = none)
    (hviol : ∀ i, i < d.count → v i ≠ d.value) :
    ∀ i, 1 ≤ i → i < d.count →
      Pushover.cyclesEqual fmt name label v tms d i =
        ({ d with counter := i, threshold_passed := some ⟨tms 0, 0⟩ }, "") := by
  intro i h1 h2
  induction i with
  | zero => omega
  | succ j ih =>
    rcases Nat.eq_zero_or_pos j with hj | hj
    · subst hj
      simp only [Pushover.cyclesEqual]
      rw [Pushover.check_equal_quiet fmt name label d (v 0) (tms 0)
        (hviol 0 (by omega)) (by omega)]
      simp [htp, hc]
    · have hstep := ih (by omega) (by omega)
      simp only [Pushover.cyclesEqual, hstep]
      have hq := Pushover.check_equal_quiet fmt name label
        { d with counter := j, threshold_passed := some ⟨tms 0, 0⟩ } (v j) (tms j)
        (hviol j (by omega)) (by simpa using h2)
      rw [hq]
      rfl

/-- C1: for every min/max/equal check with `count = N` and a fresh state
(counter 0, `last_sent_timestamp` 0, no violation record), feeding `N`
consecutive violating values at times satisfying the wait-time condition
produces no notification on cycles 1 through N-1 and exactly one notification
on the Nth cycle carrying `notifications_sent = 1` — stated for the
`notify.py` evaluator with an arbitrary comparator (instantiating min, max
and equal) and, separately and each under its own comparator's violation
hypothesis, for the `pushover.py` min, max and equal evaluators, whose
violation record then holds `notification_count = 1`. -/
theorem C1_count_threshold (violates : Int → Int → Bool) (fmt : Int → String)
    (name label : String) (d : ObservationDetail) (N : Nat)
    (hc : d.counter = 0) (hl : d.last_sent_timestamp = 0)
    (htp : d.threshold_passed = none) (hN : d.count = N) (hN1 : 1 ≤ N) :
    (∀ v tms : Nat → Int,
      (∀ i, i < N → violates (v i) d.value = true) →
      (∀ i, i < N → d.wait_time ≤ tms i ∧ 0 ≤ tms i) →
      (∀ i, 1 ≤ i → i < N →
        Notify.cycles violates name label v tms d i =
          some ({ d with counter := i, threshold_passed := some ⟨tms 0, 0⟩ }, none)) ∧
      Notify.cycles violates name label v tms d N =
        some ({ d with counter := N, threshold_passed := some ⟨tms 0, 1⟩ },
              some ⟨"outside", some d.value, name, label, some (v (N - 1)), 1, tms 0⟩)) ∧
    (∀ v tms : Nat → Int,
      (∀ i, i < N → v i < d.value) →
      (∀ i, i < N → d.wait_time ≤ tms i ∧ 0 ≤ tms i) →
      (∀ i, 1 ≤ i → i < N → (Pushover.cyclesMin fmt name label v tms d i).2 = "") ∧
      Pushover.cyclesMin fmt name label v tms d N =
        ({ d with counter := N, threshold_passed := some ⟨tms 0, 1⟩ },
         "At " ++ fmt (tms 0) ++ " " ++ name ++ label ++
           " went below threshold of " ++ toString d.value ++
           ". Current value is " ++ toString (v (N - 1)) ++ ".\n")) ∧
    (∀ v tms : Nat → Int,
      (∀ i, i < N → d.value < v i) →
      (∀ i, i < N → d.wait_time ≤ tms i ∧ 0 ≤ tms i) →
      (∀ i, 1 ≤ i → i < N → (Pushover.cyclesMax fmt name label v tms d i).2 = "") ∧
      Pushover.cyclesMax fmt name label v tms d N =
        ({ d with counter := N, threshold_passed := some ⟨tms 0, 1⟩ },
         "At " ++ fmt (tms 0) ++ " " ++ name ++ label ++
           " went above threshold of " ++ toString d.value ++
           ". Current value is " ++ toString (v (N - 1)) ++ ".\n")) ∧
    (∀ v tms : Nat → Int,
      (∀ i, i < N → v i ≠ d.value) →
      (∀ i, i < N → d.wait_time ≤ tms i ∧ 0 ≤ tms i) →
      (∀ i, 1 ≤ i → i < N → (Pushover.cyclesEqual fmt name label v tms d i).2 = "") ∧
      Pushover.cyclesEqual fmt name label v tms d N =
        ({ d with counter := N, threshold_passed := some ⟨tms 0, 1⟩ },
         "At " ++ fmt (tms 0) ++ " " ++ name ++ label ++
           " is no longer equal to threshold of " ++ toString d.value ++
           ". Current value is " ++ toString (v (N - 1)) ++ ".\n")) := by
  subst hN
  obtain ⟨M, hM⟩ : ∃ M, d.count = M + 1 := ⟨d.count - 1, by omega⟩
  refine ⟨?_, ?_, ?_, ?_⟩
  · intro v tms hviol htime
    have htd : ∀ k, k < d.count → d.wait_time ≤ |tms k - d.last_sent_timestamp| := by
      intro k hk
      rw [hl, sub_zero, abs_of_nonneg (htime k hk).2]
      exact (htime k hk).1
    refine ⟨?_, ?_⟩
    · intro i hi1 hi2
      exact Notify.cycles_quiet violates name label v tms d hc hviol i hi1 hi2
    · rcases Nat.eq_zero_or_pos M with h0 | hpos
      · rw [hM, h0]
        simp only [Notify.cycles]
        have hf := Notify.check_threshold_fire_first violates name label d (v 0) (tms 0)
          (hviol 0 (by omega)) hc (htd 0 (by omega)) (by omega)
        rw [hf]
        simp [hM, h0]
      · have hqM := Notify.cycles_quiet violates name label v tms d hc hviol
          M (by omega) (by omega)
        rw [hM]
        simp only [Notify.cycles, hqM]
        have hf := Notify.check_threshold_fire violates name label
          { d with counter := M, threshold_passed := some ⟨tms 0, 0⟩ } (v M) (tms M)
          ⟨tms 0, 0⟩ (hviol M (by omega)) (by simp; omega) rfl
          (htd M (by omega)) (by simp; omega)
        rw [hf]
        simp [hM]
  · intro v tms hviol htime
    have htd : ∀ k, k < d.count → d.wait_time ≤ |tms k - d.last_sent_timestamp| := by
      intro k hk
      rw [hl, sub_zero, abs_of_nonneg (htime k hk).2]
      exact (htime k hk).1
    refine ⟨?_, ?_⟩
    · intro i hi1 hi2
      rw [Pushover.cyclesMin_quiet fmt name label v tms d hc htp hviol i hi1 hi2]
    · rcases Nat.eq_zero_or_pos M with h0 | hpos
      · rw [hM, h0]
        simp only [Pushover.cyclesMin]
        have hf := Pushover.check_min_fire_first fmt name label d (v 0) (tms 0)
          (hviol 0 (by omega)) htp (htd 0 (by omega)) (by omega)
        rw [hf]
        simp [hM, h0, hc]
      · have hqM := Pushover.cyclesMin_quiet fmt name label v tms d hc htp hviol
          M (by omega) (by omega)
        rw [hM]
        simp only [Pushover.cyclesMin, hqM]
        have hf := Pushover.check_min_fire fmt name label
          { d with counter := M, threshold_passed := some ⟨tms 0, 0⟩ } (v M) (tms M)
          ⟨tms 0, 0⟩ (hviol M (by omega)) rfl (htd M (by omega)) (by simp; omega)
        rw [hf]
        simp [hM]
  · intro v tms hviol htime
    have htd : ∀ k, k < d.count → d.wait_time ≤ |tms k - d.last_sent_timestamp| := by
      intro k hk
      rw [hl, sub_zero, abs_of_nonneg (htime k hk).2]
      exact (htime k hk).1
    refine ⟨?_, ?_⟩
    · intro i hi1 hi2
      rw [Pushover.cyclesMax_quiet fmt name label v tms d hc htp hviol i hi1 hi2]
    · rcases Nat.eq_zero_or_pos M with h0 | hpos
      · rw [hM, h0]
        simp only [Pushover.cyclesMax]
        have hf := Pushover.check_max_fire_first fmt name label d (v 0) (tms 0)
          (hviol 0 (by omega)) htp (htd 0 (by omega)) (by omega)
        rw [hf]
        simp [hM, h0, hc]
      · have hqM := Pushover.cyclesMax_quiet fmt name label v tms d hc htp hviol
          M (by omega) (by omega)
        rw [hM]
        simp only [Pushover.cyclesMax, hqM]
        have hf := Pushover.check_max_fire fmt name label
          { d with counter := M, threshold_passed := some ⟨tms 0, 0⟩ } (v M) (tms M)
          ⟨tms 0, 0⟩ (hviol M (by omega)) rfl (htd M (by omega)) (by simp; omega)
        rw [hf]
        simp [hM]
  · intro v tms hviol htime
    have htd : ∀ k, k < d.count → d.wait_time ≤ |tms k - d.last_sent_timestamp| := by
      intro k hk
      rw [hl, sub_zero, abs_of_nonneg (htime k hk).2]
      exact (htime k hk).1
    refine ⟨?_, ?_⟩
    · intro i hi1 hi2
      rw [Pushover.cyclesEqual_quiet fmt name label v tms d hc htp hviol i hi1 hi2]
    · rcases Nat.eq_zero_or_pos M with h0 | hpos
      · rw [hM, h0]
        simp only [Pushover.cyclesEqual]
        have hf := Pushover.check_equal_fire_first fmt name label d (v 0) (tms 0)
          (hviol 0 (by omega)) htp (htd 0 (by omega)) (by omega)
        rw [hf]
        simp [hM, h0, hc]
      · have hqM := Pushover.cyclesEqual_quiet fmt name label v tms d hc htp hviol
          M (by omega) (by omega)
        rw [hM]
        simp only [Pushover.cyclesEqual, hqM]
        have hf := Pushover.check_equal_fire fmt name label
          { d with counter := M, threshold_passed := some ⟨tms 0, 0⟩ } (v M) (tms M)
          ⟨tms 0, 0⟩ (hviol M (by omega)) rfl (htd M (by omega)) (by simp; omega)
        rw [hf]
        simp [hM]

/-- C1 witness: the spec's example, threshold 10, `count = 3`,
`wait_time = 3600`, all cycles at time 3600 from a fresh state, exercising
every comparator: min with values 5, max with values 15, equal with values 7
— cycle 2 is quiet and cycle 3 notifies with `notifications_sent = 1` in each
case. -/
theorem C1_witness :
    Notify.cycles (fun a b => decide (a < b)) "T" "" (fun _ => 5) (fun _ => 3600)
        ⟨10, 3, 3600, true, 0, 0, none⟩ 2 =
      some (⟨10, 3, 3600, true, 0, 2, some ⟨3600, 0⟩⟩, none) ∧
    Notify.cycles (fun a b => decide (a < b)) "T" "" (fun _ => 5) (fun _ => 3600)
        ⟨10, 3, 3600, true, 0, 0, none⟩ 3 =
      some (⟨10, 3, 3600, true, 0, 3, some ⟨3600, 1⟩⟩,
            some ⟨"outside", some 10, "T", "", some 5, 1, 3600⟩) ∧
    (Pushover.cyclesMin fmtTS "T" "" (fun _ => 5) (fun _ => 3600)
        ⟨10, 3, 3600, true, 0, 0, none⟩ 2).2 = "" ∧
    (Pushover.cyclesMin fmtTS "T" "" (fun _ => 5) (fun _ => 3600)
        ⟨10, 3, 3600, true, 0, 0, none⟩ 3).2 ≠ "" ∧
    (Pushover.cyclesMax fmtTS "T" "" (fun _ => 15) (fun _ => 3600)
        ⟨10, 3, 3600, true, 0, 0, none⟩ 2).2 = "" ∧
    (Pushover.cyclesMax fmtTS "T" "" (fun _ => 15) (fun _ => 3600)
        ⟨10, 3, 3600, true, 0, 0, none⟩ 3).2 ≠ "" ∧
    (Pushover.cyclesEqual fmtTS "T" "" (fun _ => 7) (fun _ => 3600)
        ⟨10, 3, 3600, true, 0, 0, none⟩ 2).2 = "" ∧
    (Pushover.cyclesEqual fmtTS "T" "" (fun _ => 7) (fun _ => 3600)
        ⟨10, 3, 3600, true, 0, 0, none⟩ 3).2 ≠ "" := by
  have h := C1_count_threshold (fun a b => decide (a < b)) fmtTS "T" ""
    ⟨10, 3, 3600, true, 0, 0, none⟩ 3 rfl rfl rfl rfl (by omega)
  have hn := h.1 (fun _ => 5) (fun _ => 3600)
    (by intro i _; exact rfl)
    (by intro i _; exact ⟨by norm_num, by norm_num⟩)
  have hmin := h.2.1 (fun _ => 5) (fun _ => 3600)
    (by intro i _; norm_num)
    (by intro i _; exact ⟨by norm_num, by norm_num⟩)
  have hmax := h.2.2.1 (fun _ => 15) (fun _ => 3600)
    (by intro i _; norm_num)
    (by intro i _; exact ⟨by norm_num, by norm_num⟩)
  have heq := h.2.2.2 (fun _ => 7) (fun _ => 3600)
    (by intro i _; norm_num)
    (by intro i _; exact ⟨by norm_num, by norm_num⟩)
  refine ⟨hn.1 2 (by omega) (by omega), hn.2, ?_, ?_, ?_, ?_, ?_, ?_⟩
  · rw [hmin.1 2 (by omega) (by omega)]
  · rw [hmin.2]
    decide
  · rw [hmax.1 2 (by omega) (by omega)]
  · rw [hmax.2]
    decide
  · rw [heq.1 2 (by omega) (by omega)]
  · rw [heq.2]
    decide

/-- Helper: a non-violating value while in violation resets the counter to 0
and sets the sentinel `last_sent_timestamp = 1` (`notify.py` variant). -/
theorem Notify.check_threshold_clear (violates : Int → Int → Bool)
    (name label : String) (d : ObservationDetail) (value now : Int)
    (tp : ThresholdPassed)
    (hv : violates value d.value = false) (hcpos : 0 < d.counter)
    (htp : d.threshold_passed = some tp) :
    ∃ res, Notify.check_threshold violates name label d value now =
      some ({ d with counter := 0, last_sent_timestamp := 1 }, res) := by
  unfold Notify.check_threshold
  rw [if_neg (by simp [hv]), if_pos hcpos, htp]
  exact ⟨_, rfl⟩

/-- Helper: a non-violating value while a violation record exists resets the
counter, sets the sentinel `last_sent_timestamp = 1` and deletes the record
(`pushover.py` min variant). -/
theorem Pushover.check_min_clear (fmt : Int → String) (name label : String)
    (d : ObservationDetail) (value now : Int) (tp : ThresholdPassed)
    (hv : ¬ value < d.value) (htp : d.threshold_passed = some tp) :
    ∃ msg, Pushover.check_min_value fmt name label d value now =
      ({ d with counter := 0, last_sent_timestamp := 1, threshold_passed := none },
       msg) := by
  unfold Pushover.check_min_value
  rw [if_neg hv, htp]
  exact ⟨_, rfl⟩

/-- Helper: a non-violating value while a violation record exists resets the
counter, sets the sentinel `last_sent_timestamp = 1` and deletes the record
(`pushover.py` max variant). -/
theorem Pushover.check_max_clear (fmt : Int → String) (name label : String)
    (d : ObservationDetail) (value now : Int) (tp : ThresholdPassed)
    (hv : ¬ d.value < value) (htp : d.threshold_passed = some tp) :
    ∃ msg, Pushover.check_max_value fmt name label d value now =
      ({ d with counter := 0, last_sent_timestamp := 1, threshold_passed := none },
       msg) := by
  unfold Pushover.check_max_value
  rw [if_neg hv, htp]
  exact ⟨_, rfl⟩

/-- Helper: a value equal to the threshold while a violation record exists
resets the counter, sets the sentinel `last_sent_timestamp = 1` and deletes
the record (`pushover.py` equal variant). -/
theorem Pushover.check_equal_clear (fmt : Int → String) (name label : String)
    (d : ObservationDetail) (value now : Int) (tp : ThresholdPassed)
    (hv : value = d.value) (htp : d.threshold_passed = some tp) :
    ∃ msg, Pushover.check_equal_value fmt name label d value now =
      ({ d with counter := 0, last_sent_timestamp := 1, threshold_passed := none },
       msg) := by
  unfold Pushover.check_equal_value
  rw [if_neg (fun h => h hv), htp]
  exact ⟨_, rfl⟩

/-- C6: round-trip — for every min/max/equal check, entering violation
(counter > 0 with a violation record) and then receiving a value back within
the threshold leaves the state with `counter = 0` and
`last_sent_timestamp = 1` (the sentinel, not 0), and a subsequent identical
violation re-accumulates the counter from 0, producing no notification before
`count` further consecutive violating cycles — stated for the `notify.py`
evaluator with an arbitrary comparator and, each under its own comparator's
hypotheses, for the `pushover.py` min, max and equal evaluators. -/
theorem C6_round_trip (violates : Int → Int → Bool) (fmt : Int → String)
    (name label : String) (d : ObservationDetail) (tp : ThresholdPassed)
    (htp : d.threshold_passed = some tp) (hcpos : 0 < d.counter) :
    (∀ (value now : Int) (v tms : Nat → Int),
      violates value d.value = false →
      (∀ i, i < d.count → violates (v i) d.value = true) →
      ∃ res, Notify.check_threshold violates name label d value now =
          some ({ d with counter := 0, last_sent_timestamp := 1 }, res) ∧
        ∀ j, 1 ≤ j → j < d.count →
          Notify.cycles violates name label v tms
              { d with counter := 0, last_sent_timestamp := 1 } j =
            some ({ d with
                      counter := j,
                      last_sent_timestamp := 1,
                      threshold_passed := some ⟨tms 0, 0⟩ }, none)) ∧
    (∀ (value now : Int) (v tms : Nat → Int),
      ¬ value < d.value →
      (∀ i, i < d.count → v i < d.value) →
      ∃ msg, Pushover.check_min_value fmt name label d value now =
          ({ d with
               counter := 0,
               last_sent_timestamp := 1,
               threshold_passed := none }, msg) ∧
        ∀ j, 1 ≤ j → j < d.count →
          (Pushover.cyclesMin fmt name label v tms
              { d with
                  counter := 0,
                  last_sent_timestamp := 1,
                  threshold_passed := none } j).2 = "") ∧
    (∀ (value now : Int) (v tms : Nat → Int),
      ¬ d.value < value →
      (∀ i, i < d.count → d.value < v i) →
      ∃ msg, Pushover.check_max_value fmt name label d value now =
          ({ d with
               counter := 0,
               last_sent_timestamp := 1,
               threshold_passed := none }, msg) ∧
        ∀ j, 1 ≤ j → j < d.count →
          (Pushover.cyclesMax fmt name label v tms
              { d with
                  counter := 0,
                  last_sent_timestamp := 1,
                  threshold_passed := none } j).2 = "") ∧
    (∀ (value now : Int) (v tms : Nat → Int),
      value = d.value →
      (∀ i, i < d.count → v i ≠ d.value) →
      ∃ msg, Pushover.check_equal_value fmt name label d value now =
          ({ d with
               counter := 0,
               last_sent_timestamp := 1,
               threshold_passed := none }, msg) ∧
        ∀ j, 1 ≤ j → j < d.count →
          (Pushover.cyclesEqual fmt name label v tms
              { d with
                  counter := 0,
                  last_sent_timestamp := 1,
                  threshold_passed := none } j).2 = "") := by
  refine ⟨?_, ?_, ?_, ?_⟩
  · intro value now v tms hv hviol
    obtain ⟨res, hres⟩ :=
      Notify.check_threshold_clear violates name label d value now tp hv hcpos htp
    refine ⟨res, hres, ?_⟩
    intro j hj1 hj2
    exact Notify.cycles_quiet violates name label v tms
      { d with counter := 0, last_sent_timestamp := 1 } rfl hviol j hj1 hj2
  · intro value now v tms hv hviol
    obtain ⟨msg, hmsg⟩ :=
      Pushover.check_min_clear fmt name label d value now tp hv htp
    refine ⟨msg, hmsg, ?_⟩
    intro j hj1 hj2
    rw [Pushover.cyclesMin_quiet fmt name label v tms
      { d with counter := 0, last_sent_timestamp := 1, threshold_passed := none }
      rfl rfl hviol j hj1 hj2]
  · intro value now v tms hv hviol
    obtain ⟨msg, hmsg⟩ :=
      Pushover.check_max_clear fmt name label d value now tp hv htp
    refine ⟨msg, hmsg, ?_⟩
    intro j hj1 hj2
    rw [Pushover.cyclesMax_quiet fmt name label v tms
      { d with counter := 0, last_sent_timestamp := 1, threshold_passed := none }
      rfl rfl hviol j hj1 hj2]
  · intro value now v tms hv hviol
    obtain ⟨msg, hmsg⟩ :=
      Pushover.check_equal_clear fmt name label d value now tp hv htp
    refine ⟨msg, hmsg, ?_⟩
    intro j hj1 hj2
    rw [Pushover.cyclesEqual_quiet fmt name label v tms
      { d with counter := 0, last_sent_timestamp := 1, threshold_passed := none }
      rfl rfl hviol j hj1 hj2]

/-- C6 witness: a check in violation (threshold 10, count 3, counter 2, one
notification sent) receives a within-threshold value at time 501 — 15 for
min, 5 for max, 10 for equal: each resets the counter to 0 with the sentinel
`last_sent_timestamp = 1`; two subsequent violating cycles at time 4000
(5 for min, 15 for max, 7 for equal) re-accumulate the counter to 2 without
an event. -/
theorem C6_witness :
    (∃ res, Notify.check_threshold (fun a b => decide (a < b)) "T" ""
        ⟨10, 3, 3600, true, 500, 2, some ⟨400, 1⟩⟩ 15 501 =
      some (⟨10, 3, 3600, true, 1, 0, some ⟨400, 1⟩⟩, res)) ∧
    Notify.cycles (fun a b => decide (a < b)) "T" "" (fun _ => 5) (fun _ => 4000)
        ⟨10, 3, 3600, true, 1, 0, some ⟨400, 1⟩⟩ 2 =
      some (⟨10, 3, 3600, true, 1, 2, some ⟨4000, 0⟩⟩, none) ∧
    (∃ msg, Pushover.check_min_value fmtTS "T" ""
        ⟨10, 3, 3600, true, 500, 2, some ⟨400, 1⟩⟩ 15 501 =
      (⟨10, 3, 3600, true, 1, 0, none⟩, msg)) ∧
    (Pushover.cyclesMin fmtTS "T" "" (fun _ => 5) (fun _ => 4000)
        ⟨10, 3, 3600, true, 1, 0, none⟩ 2).2 = "" ∧
    (∃ msg, Pushover.check_max_value fmtTS "T" ""
        ⟨10, 3, 3600, true, 500, 2, some ⟨400, 1⟩⟩ 5 501 =
      (⟨10, 3, 3600, true, 1, 0, none⟩, msg)) ∧
    (Pushover.cyclesMax fmtTS "T" "" (fun _ => 15) (fun _ => 4000)
        ⟨10, 3, 3600, true, 1, 0, none⟩ 2).2 = "" ∧
    (∃ msg, Pushover.check_equal_value fmtTS "T" ""
        ⟨10, 3, 3600, true, 500, 2, some ⟨400, 1⟩⟩ 10 501 =
      (⟨10, 3, 3600, true, 1, 0, none⟩, msg)) ∧
    (Pushover.cyclesEqual fmtTS "T" "" (fun _ => 7) (fun _ => 4000)
        ⟨10, 3, 3600, true, 1, 0, none⟩ 2).2 = "" := by
  have h := C6_round_trip (fun a b => decide (a < b)) fmtTS "T" ""
    ⟨10, 3, 3600, true, 500, 2, some ⟨400, 1⟩⟩ ⟨400, 1⟩ rfl (by decide)
  obtain ⟨res, hres, hq⟩ := h.1 15 501 (fun _ => 5) (fun _ => 4000) (by decide)
    (by intro i _; exact rfl)
  obtain ⟨m1, hm1, hq1⟩ := h.2.1 15 501 (fun _ => 5) (fun _ => 4000) (by norm_num)
    (by intro i _; norm_num)
  obtain ⟨m2, hm2, hq2⟩ := h.2.2.1 5 501 (fun _ => 15) (fun _ => 4000) (by norm_num)
    (by intro i _; norm_num)
  obtain ⟨m3, hm3, hq3⟩ := h.2.2.2 10 501 (fun _ => 7) (fun _ => 4000) rfl
    (by intro i _; norm_num)
  exact ⟨⟨res, hres⟩, hq 2 (by omega) (by decide), ⟨m1, hm1⟩,
    hq1 2 (by omega) (by decide), ⟨m2, hm2⟩, hq2 2 (by omega) (by decide),
    ⟨m3, hm3⟩, hq3 2 (by omega) (by decide)⟩

/-- C8 counterexample: a state satisfying the "tracker entry exists iff
counter > 0" invariant (entry present, missing counter 3) is broken by the
post-send update: `check_response` at HTTP 200 with a nonempty missing
message resets the counter to 0, but it never touches `missing_observations`,
so the entry persists with counter 0. -/
theorem C8_counterexample :
    ((Option.some (⟨100, 1⟩ : TrackerEntry)).isSome ↔
      0 < (⟨0, 10, 3600, true, 0, 3, none⟩ : ObservationDetail).counter) ∧
    ((Pusher.check_response ⟨3600, 3600, 0, 0, 0⟩ 200 500 (fun _ => "m")
        (fun _ => ⟨0, 10, 3600, true, 0, 3, none⟩)).2 CheckKey.missing).counter = 0 ∧
    ¬ ((Option.some (⟨100, 1⟩ : TrackerEntry)).isSome ↔
      0 < ((Pusher.check_response ⟨3600, 3600, 0, 0, 0⟩ 200 500 (fun _ => "m")
        (fun _ => ⟨0, 10, 3600, true, 0, 3, none⟩)).2 CheckKey.missing).counter) := by
  decide

/-- Helper: a completed `Notify.check_missing_value` step always leaves a
tracker entry, assuming the entry/counter implication held before. -/
theorem Notify.check_missing_value_tracker (name label : String)
    (s s' : MissingState) (now : Int) (r : Option NotifyResult)
    (hinv : 0 < s.detail.counter → s.tracker.isSome = true)
    (he : Notify.check_missing_value name label s now = some (s', r)) :
    s'.tracker.isSome = true := by
  by_cases hc : s.detail.counter = 0
  · simp only [Notify.check_missing_value, hc, if_pos rfl, ite_true] at he
    split_ifs at he <;>
      · simp only [Option.some.injEq, Prod.mk.injEq] at he
        obtain ⟨hs, -⟩ := he
        subst hs
        rfl
  · obtain ⟨tr0, htr⟩ := Option.isSome_iff_exists.mp (hinv (by omega))
    simp only [Notify.check_missing_value, hc, if_neg hc, ite_false, htr] at he
    split_ifs at he <;>
      · simp only [Option.some.injEq, Prod.mk.injEq] at he
        obtain ⟨hs, -⟩ := he
        subst hs
        rfl

/-- Helper: a completed `Notify.check_value_returned` step always leaves the
missing counter at 0 (either it resets it, or it was already 0). -/
theorem Notify.check_value_returned_counter (name label : String)
    (s s' : MissingState) (value now : Int) (r : Option NotifyResult)
    (he : Notify.check_value_returned name label s value now = some (s', r)) :
    s'.detail.counter = 0 := by
  by_cases hc : 0 < s.detail.counter
  · cases htr : s.tracker with
    | none =>
      rw [Notify.check_value_returned, if_pos hc, htr] at he
      simp at he
    | some tr =>
      rw [Notify.check_value_returned, if_pos hc, htr] at he
      simp only [Option.some.injEq, Prod.mk.injEq] at he
      obtain ⟨hs, -⟩ := he
      subst hs
      rfl
  · rw [Notify.check_value_returned, if_neg hc] at he
    simp only [Option.some.injEq, Prod.mk.injEq] at he
    obtain ⟨hs, -⟩ := he
    subst hs
    split_ifs <;> simpa using by omega

/-- Helper: a completed `Notify.check_value_returned` step never changes the
tracker — `notify.py` has no `del self.missing_observations[observation]`. -/
theorem Notify.check_value_returned_tracker (name label : String)
    (s s' : MissingState) (value now : Int) (r : Option NotifyResult)
    (he : Notify.check_value_returned name label s value now = some (s', r)) :
    s'.tracker = s.tracker := by
  by_cases hc : 0 < s.detail.counter
  · cases htr : s.tracker with
    | none =>
      rw [Notify.check_value_returned, if_pos hc, htr] at he
      simp at he
    | some tr =>
      rw [Notify.check_value_returned, if_pos hc, htr] at he
      simp only [Option.some.injEq, Prod.mk.injEq] at he
      obtain ⟨hs, -⟩ := he
      subst hs
      rfl
  · rw [Notify.check_value_returned, if_neg hc] at he
    simp only [Option.some.injEq, Prod.mk.injEq] at he
    obtain ⟨hs, -⟩ := he
    subst hs
    rfl

/-- C8 (amended): the implication "missing counter > 0 implies a tracker entry
exists" — one direction of the claimed iff — is preserved by every operation
in both variants: by `pushover.py`'s `check_missing_value`,
`check_value_returned` and post-send `check_response` update (which leaves
the tracker untouched and can only lower the counter to 0), and by
`notify.py`'s `check_missing_value` and `check_value_returned` (which zeroes
the counter but keeps the tracker entry — `notify.py` never deletes it).  The
converse direction fails after a successful missing-notification send (see
the counterexample). -/
theorem C8_tracker_invariant_preserved (fmt : Int → String) (name label : String)
    (s : MissingState) (value now : Int) (code : Int)
    (p : PusherState) (msgs : CheckKey → String)
    (details : CheckKey → ObservationDetail) (k : CheckKey)
    (s1 s2 : MissingState) (r1 r2 : Option NotifyResult)
    (hinv : 0 < s.detail.counter → s.tracker.isSome = true)
    (hk : 0 < (details k).counter → s.tracker.isSome = true)
    (he1 : Notify.check_missing_value name label s now = some (s1, r1))
    (he2 : Notify.check_value_returned name label s value now = some (s2, r2)) :
    (0 < (Pushover.check_missing_value fmt name label s now).1.detail.counter →
      (Pushover.check_missing_value fmt name label s now).1.tracker.isSome = true) ∧
    (0 < (Pushover.check_value_returned fmt name label s value now).1.detail.counter →
      (Pushover.check_value_returned fmt name label s value now).1.tracker.isSome = true) ∧
    (0 < ((Pusher.check_response p code now msgs details).2 k).counter →
      s.tracker.isSome = true) ∧
    s1.tracker.isSome = true ∧
    ((0 < s2.detail.counter → s2.tracker.isSome = true) ∧ s2.tracker = s.tracker) := by
  refine ⟨?_, ?_, ?_, ?_, ?_, ?_⟩
  · intro _
    simp only [Pushover.check_missing_value]
    split_ifs <;> rfl
  · intro h0
    cases htr : s.tracker with
    | none =>
      exfalso
      have hc : 0 < s.detail.counter := by
        unfold Pushover.check_value_returned at h0
        rw [htr] at h0
        split_ifs at h0 <;> simpa using h0
      have hsome := hinv hc
      rw [htr] at hsome
      simp at hsome
    | some tr =>
      exfalso
      unfold Pushover.check_value_returned at h0
      rw [htr] at h0
      simp at h0
  · intro h0
    unfold Pusher.check_response at h0
    by_cases h200 : code = 200
    · rw [if_pos h200] at h0
      simp only [] at h0
      by_cases hm : msgs k ≠ ""
      · rw [if_pos hm] at h0
        simp at h0
      · rw [if_neg hm] at h0
        exact hk h0
    · rw [if_neg h200] at h0
      exact hk h0
  · exact Notify.check_missing_value_tracker name label s s1 now r1 hinv he1
  · intro h0
    have hz := Notify.check_value_returned_counter name label s s2 value now r2 he2
    exact absurd h0 (by omega)
  · exact Notify.check_value_returned_tracker name label s s2 value now r2 he2

/-- C8 witness: the amended statement at a concrete state with a tracker
entry and missing counter 2 (the implication-invariant holds), exercising the
pushover operations, the 200 response, and both `notify.py` checks at time
5000. -/
theorem C8_witness :
    (Pushover.check_missing_value fmtTS "T" ""
        ⟨⟨0, 10, 3600, true, 1, 2, none⟩, some ⟨100, 1⟩⟩ 5000).1.tracker.isSome = true ∧
    (0 < (Pushover.check_value_returned fmtTS "T" ""
        ⟨⟨0, 10, 3600, true, 1, 2, none⟩, some ⟨100, 1⟩⟩ 7 5000).1.detail.counter →
      (Pushover.check_value_returned fmtTS "T" ""
        ⟨⟨0, 10, 3600, true, 1, 2, none⟩, some ⟨100, 1⟩⟩ 7 5000).1.tracker.isSome = true) ∧
    (0 < ((Pusher.check_response ⟨3600, 3600, 0, 0, 0⟩ 200 5000 (fun _ => "m")
        (fun _ => ⟨0, 10, 3600, true, 1, 2, none⟩)).2 CheckKey.missing).counter →
      (Option.some (⟨100, 1⟩ : TrackerEntry)).isSome = true) ∧
    (⟨⟨0, 10, 3600, true, 1, 3, none⟩, some ⟨100, 1⟩⟩ :
        MissingState).tracker.isSome = true ∧
    ((0 < (⟨⟨0, 10, 3600, true, 1, 0, none⟩, some ⟨100, 1⟩⟩ :
          MissingState).detail.counter →
        (⟨⟨0, 10, 3600, true, 1, 0, none⟩, some ⟨100, 1⟩⟩ :
          MissingState).tracker.isSome = true) ∧
      (⟨⟨0, 10, 3600, true, 1, 0, none⟩, some ⟨100, 1⟩⟩ :
        MissingState).tracker = (⟨⟨0, 10, 3600, true, 1, 2, none⟩,
          some ⟨100, 1⟩⟩ : MissingState).tracker) := by
  have h := C8_tracker_invariant_preserved fmtTS "T" ""
    ⟨⟨0, 10, 3600, true, 1, 2, none⟩, some ⟨100, 1⟩⟩ 7 5000 200
    ⟨3600, 3600, 0, 0, 0⟩ (fun _ => "m") (fun _ => ⟨0, 10, 3600, true, 1, 2, none⟩)
    CheckKey.missing
    ⟨⟨0, 10, 3600, true, 1, 3, none⟩, some ⟨100, 1⟩⟩
    ⟨⟨0, 10, 3600, true, 1, 0, none⟩, some ⟨100, 1⟩⟩
    none (some ⟨"returned", none, "T", "", some 7, 1, 100⟩)
    (fun _ => rfl) (fun _ => rfl) (by decide) (by decide)
  exact ⟨h.1 (by decide), h.2.1, h.2.2.1, h.2.2.2.1, h.2.2.2.2⟩

/-- Helper: every runtime-reachable missing-check state of `notify.py`
satisfies the implication "counter > 0 implies a tracker entry exists". -/
theorem Notify.reach_tracker (s : MissingState) (h : Notify.Reach s) :
    0 < s.detail.counter → s.tracker.isSome = true := by
  induction h with
  | init d hc hl => intro h0; exact absurd h0 (by simp [hc])
  | stepMissing s s' name label now r h he ih =>
    intro _
    exact Notify.check_missing_value_tracker name label s s' now r ih he
  | stepReturned s s' name label value now r h he ih =>
    intro h0
    have hz := Notify.check_value_returned_counter name label s s' value now r he
    exact absurd h0 (by omega)
  | stepPostSend s now h ih =>
    intro h0
    exact ih h0

/-- C10: implicit safety of the unguarded
`self.missing_observations[observation]` lookup in `notify.py`'s
`check_value_returned`: on every runtime-reachable state the call completes
without a `KeyError` — whenever the missing counter is positive a tracker
entry exists, because `check_missing_value` creates the entry in the same
cycle the counter first leaves 0 and no operation removes it while the
counter stays positive. -/
theorem C10_returned_lookup_safe (s : MissingState) (h : Notify.Reach s)
    (name label : String) (value now : Int) :
    (Notify.check_value_returned name label s value now).isSome = true := by
  have hinv := Notify.reach_tracker s h
  unfold Notify.check_value_returned
  by_cases hc : 0 < s.detail.counter
  · obtain ⟨tr, htr⟩ := Option.isSome_iff_exists.mp (hinv hc)
    simp [hc, htr]
  · simp [hc]

/-- C10 witness: the lookup succeeds on the concrete reachable state produced
by one missing cycle from a fresh observation (counter 1, entry present). -/
theorem C10_witness :
    (Notify.check_value_returned "n" ""
      ⟨⟨0, 10, 3600, true, 0, 1, none⟩, some ⟨100, 0⟩⟩ 5 200).isSome = true :=
  C10_returned_lookup_safe ⟨⟨0, 10, 3600, true, 0, 1, none⟩, some ⟨100, 0⟩⟩
    (Notify.Reach.stepMissing ⟨⟨0, 10, 3600, true, 0, 0, none⟩, none⟩ _ "n" "" 100 none
      (Notify.Reach.init ⟨0, 10, 3600, true, 0, 0, none⟩ rfl rfl) (by decide))
    "n" "" 5 200
